import Mathlib

/-!
Verification of the invoice field-extraction core (hybrid reconciler, OCR
text-pattern extractor, line-item segmenter and improver, JSON serializer)
against its natural-language specification.

The Python sources are shallowly embedded: every function below is a direct
translation of the correspondingly named function of the repository
(`src/extractors/*.py`, `src/clients/veryfi_client.py`, `src/json_generator.py`,
`src/config/patterns.py`).  Python floats are modelled as `Rat` (the code only
parses decimal literals, compares against zero, negates and sums, so rationals
are an exact model); Python `None` is modelled with `Option`; Python dict/JSON
trees are modelled by the inductive `JVal`.  The regular expressions of
`patterns.py` are embedded as specialised matchers over `List Char` that
reproduce the leftmost-search, greedy/backtracking semantics of `re` for the
exact patterns appearing in the source.  Wall-clock time ("now") is modelled at
day granularity as an integer day number passed explicitly.
-/

namespace Invoice

/-! ## Python string primitives -/

/-- Python `str.isspace` / the `\s` class for ASCII text. -/
def pyIsSpace (c : Char) : Bool :=
  c == ' ' || c == '\t' || c == '\n' || c == '\r' || c == '\x0b' || c == '\x0c'

/-- The `\w` word-character class (ASCII). -/
def isWordChar (c : Char) : Bool :=
  c.isAlphanum || c == '_'

/-- Python `str.strip` on a character list. -/
def pyStripL (cs : List Char) : List Char :=
  ((cs.dropWhile pyIsSpace).reverse.dropWhile pyIsSpace).reverse

/-- Python `str.strip`. -/
def pyStrip (s : String) : String :=
  String.mk (pyStripL s.data)

/-- Python `str.lower` (ASCII). -/
def pyLower (s : String) : String :=
  String.mk (s.data.map Char.toLower)

/-- Is `pre` a prefix of `cs`? (Python `str.startswith`.) -/
def startsWithL : List Char → List Char → Bool
  | [], _ => true
  | _ :: _, [] => false
  | a :: as, b :: bs => a == b && startsWithL as bs

/-- Substring containment on lists (Python `sub in s`). -/
def containsL : List Char → List Char → Bool
  | hay, needle =>
    match hay with
    | [] => needle.isEmpty
    | _ :: t => startsWithL needle hay || containsL t needle

/-- Python `sub in s`. -/
def pyContains (s sub : String) : Bool :=
  containsL s.data sub.data

/-- `s.split('\n')` on the underlying characters (structural, so that proofs
can evaluate it). -/
def splitNlL : List Char → List (List Char)
  | [] => [[]]
  | c :: cs =>
    let r := splitNlL cs
    if c = '\n' then [] :: r
    else
      match r with
      | h :: t => (c :: h) :: t
      | [] => [[c]]

/-- Python `s.split('\n')`. -/
def pySplitNl (s : String) : List String :=
  (splitNlL s.data).map String.mk

/-- Whitespace tokenisation, Python `str.split()` with no argument. -/
def splitWsGo : List Char → List Char → List (List Char)
  | [], acc => if acc.isEmpty then [] else [acc.reverse]
  | c :: cs, acc =>
    if pyIsSpace c then
      if acc.isEmpty then splitWsGo cs [] else acc.reverse :: splitWsGo cs []
    else splitWsGo cs (c :: acc)

/-- Python `str.split()` (split on whitespace runs, drop empties). -/
def pySplitWs (s : String) : List String :=
  (splitWsGo s.data []).map String.mk

/-- Python `' '.join(s.split())`: collapse all whitespace runs to single spaces. -/
def pyCollapseWs (s : String) : String :=
  String.mk (((splitWsGo s.data []).intersperse [' ']).flatten)

/-- Python `str.capitalize`: first character uppercased, the rest lowercased. -/
def pyCapitalize (s : String) : String :=
  match s.data with
  | [] => ""
  | c :: cs => String.mk (c.toUpper :: cs.map Char.toLower)

/-- Python `str.isdigit` (ASCII). -/
def pyIsDigitStr (s : String) : Bool :=
  !s.data.isEmpty && s.data.all Char.isDigit

/-- Python `str.isalpha` (ASCII). -/
def pyIsAlphaStr (s : String) : Bool :=
  !s.data.isEmpty && s.data.all Char.isAlpha

/-- Python `str.islower` (ASCII): has a cased character and no uppercase one. -/
def pyIsLowerStr (s : String) : Bool :=
  s.data.any Char.isAlpha && s.data.all (fun c => !c.isUpper)

/-- Numeric value of a digit string. -/
def digitsToNat (cs : List Char) : Nat :=
  cs.foldl (fun a c => a * 10 + (c.toNat - '0'.toNat)) 0

/-- Python `abs` on a rational. -/
def pyAbs (q : Rat) : Rat :=
  if q < 0 then -q else q

/-- `pyAbs` is nonnegative. -/
theorem pyAbs_nonneg (q : Rat) : 0 ≤ pyAbs q := by
  unfold pyAbs
  split <;> linarith

/-- Parse an unsigned decimal `digits[.digits]` (at least one digit) that must
consume the whole input; models the relevant fragment of Python `float(str)`.
(The value is assembled with `mkRat` so that proofs can evaluate it.) -/
def parseUnsignedDecimal (cs : List Char) : Option Rat :=
  let intPart := cs.takeWhile Char.isDigit
  let rest := cs.dropWhile Char.isDigit
  match rest with
  | [] =>
    if intPart.isEmpty then none else some (mkRat (digitsToNat intPart) 1)
  | '.' :: rest' =>
    let frac := rest'.takeWhile Char.isDigit
    let rest'' := rest'.dropWhile Char.isDigit
    if rest''.isEmpty && !(intPart.isEmpty && frac.isEmpty) then
      some (mkRat (digitsToNat (intPart ++ frac)) (10 ^ frac.length))
    else none
  | _ => none

/-- Python `float(s)` restricted to the decimal literals this code base feeds
it (optional surrounding whitespace, optional sign, `digits[.digits]`).
Anything else is `none` (Python would raise `ValueError`, always caught). -/
def pyFloatOfString (s : String) : Option Rat :=
  match pyStripL s.data with
  | '-' :: cs => (parseUnsignedDecimal cs).map (fun q => -q)
  | '+' :: cs => parseUnsignedDecimal cs
  | cs => parseUnsignedDecimal cs

/-! ## JSON-like values (Veryfi structured responses) -/

/-- A Python value as found in Veryfi API responses: `None`, booleans, numbers
(floats and ints collapsed to `Rat`), strings, lists and dicts. -/
inductive JVal where
  | null : JVal
  | jbool : Bool → JVal
  | num : Rat → JVal
  | str : String → JVal
  | jlist : List JVal → JVal
  | dict : List (String × JVal) → JVal
deriving Repr

/-- Python truthiness of a `JVal`. -/
def truthyJ : JVal → Bool
  | .null => false
  | .jbool b => b
  | .num q => decide (q ≠ 0)
  | .str s => !s.isEmpty
  | .jlist l => !l.isEmpty
  | .dict d => !d.isEmpty

/-- Dict lookup (first binding wins, like a Python dict with unique keys). -/
def dictGet (d : List (String × JVal)) (k : String) : Option JVal :=
  (d.find? (fun p => p.1 == k)).map (·.2)

/-- Python truthiness of an `Option JVal` (`none` models Python `None`). -/
def truthyOpt : Option JVal → Bool
  | none => false
  | some v => truthyJ v

/-- `VeryfiClient.safe_get_nested_value` (veryfi_client.py:179-203): walk the
key path, bailing out with `None` whenever the current node is not a dict
containing the key; finally unwrap a `{value: ...}` leaf wrapper.  A Python
`None` result is modelled as `none`. -/
def safeGetGo : JVal → List String → Option JVal
  | cur, [] =>
    match cur with
    | .dict d =>
      match dictGet d "value" with
      | some .null => none
      | some v => some v
      | none => some (.dict d)
    | .null => none
    | v => some v
  | cur, k :: ks =>
    match cur with
    | .dict d =>
      match dictGet d k with
      | some v => safeGetGo v ks
      | none => none
    | _ => none

/-- `VeryfiClient.safe_get_nested_value` entry point: the data argument is a
dict. -/
def safeGetNestedValue (data : List (String × JVal)) (keys : List String) : Option JVal :=
  safeGetGo (.dict data) keys

/-- First alternative path whose looked-up value is truthy
(the loop of veryfi_client.py:228-232). -/
def firstTruthyPath (response : List (String × JVal)) : List (List String) → Option JVal
  | [] => none
  | p :: ps =>
    let v := safeGetNestedValue response p
    if truthyOpt v then v else firstTruthyPath response ps

/-- `VeryfiClient.extract_structured_field` (veryfi_client.py:206-234): try the
primary path, then the alternatives, keeping the first truthy value; `None`
when the response is falsy or every lookup is falsy. -/
def extractStructuredField (response : List (String × JVal)) (fieldPath : List String)
    (altPaths : List (List String)) : Option JVal :=
  if response.isEmpty then none
  else
    let v := safeGetNestedValue response fieldPath
    if truthyOpt v then v else firstTruthyPath response altPaths

/-! ## C10 theorems -/

/-- **C10** — In structured path lookup, a key path whose leaf value is falsy
is treated exactly like an absent path: `extract_structured_field` skips it
(the result only depends on the alternative paths, so any two falsy primary
paths — in particular an absent one — give the same result), it returns `None`
when every path yields a falsy value, and consequently every extracted value
is truthy, so a field whose genuine value is `0`/`''`-like falsy data can
never be extracted through this lookup. -/
theorem c10_falsy_leaf_skipped (r : List (String × JVal)) (p p' : List String)
    (alts : List (List String))
    (hp : truthyOpt (safeGetNestedValue r p) = false)
    (hp' : truthyOpt (safeGetNestedValue r p') = false) :
    extractStructuredField r p alts = extractStructuredField r p' alts ∧
    ((∀ q ∈ p :: alts, truthyOpt (safeGetNestedValue r q) = false) →
      extractStructuredField r p alts = none) ∧
    (∀ v, extractStructuredField r p alts = some v → truthyJ v = true) := by
  have haux : ∀ (ps : List (List String)),
      (∀ q ∈ ps, truthyOpt (safeGetNestedValue r q) = false) →
      firstTruthyPath r ps = none := by
    intro ps
    induction ps with
    | nil => intro _; rfl
    | cons q qs ih =>
      intro hall
      have hq : truthyOpt (safeGetNestedValue r q) = false := hall q (by simp)
      simp only [firstTruthyPath, hq, Bool.false_eq_true, if_false]
      exact ih (fun x hx => hall x (List.mem_cons_of_mem _ hx))
  have haux2 : ∀ (ps : List (List String)) (v : JVal),
      firstTruthyPath r ps = some v → truthyJ v = true := by
    intro ps
    induction ps with
    | nil => intro v hv; exact absurd hv (by simp [firstTruthyPath])
    | cons q qs ih =>
      intro v hv
      simp only [firstTruthyPath] at hv
      by_cases hq : truthyOpt (safeGetNestedValue r q) = true
      · rw [if_pos hq] at hv
        rw [hv] at hq
        exact hq
      · rw [if_neg hq] at hv
        exact ih v hv
  refine ⟨?_, ?_, ?_⟩
  · simp only [extractStructuredField, hp, hp', Bool.false_eq_true, if_false]
  · intro hall
    simp only [extractStructuredField, hp, Bool.false_eq_true, if_false]
    rw [haux alts (fun x hx => hall x (List.mem_cons_of_mem _ hx))]
    simp
  · intro v hv
    simp only [extractStructuredField, hp, Bool.false_eq_true, if_false] at hv
    by_cases hr : r.isEmpty
    · simp [hr] at hv
    · simp only [hr, Bool.false_eq_true, if_false, ite_false] at hv
      exact haux2 alts v hv

/-- Witness for C10: the response `{vendor: {name: {value: ""}}, total: 0}`
has a falsy leaf at `['vendor','name']` (unwrapping the wrapper to `""`), so
lookup behaves like the absent path `['missing']`, and with every path falsy
the extraction returns `None`. -/
theorem c10_falsy_leaf_skipped_witness :
    extractStructuredField
        [("vendor", .dict [("name", .dict [("value", .str "")])]), ("total", .num 0)]
        ["vendor", "name"] [["total"]]
      = extractStructuredField
        [("vendor", .dict [("name", .dict [("value", .str "")])]), ("total", .num 0)]
        ["missing"] [["total"]] ∧
    extractStructuredField
        [("vendor", .dict [("name", .dict [("value", .str "")])]), ("total", .num 0)]
        ["vendor", "name"] [["total"]] = none := by
  have h := c10_falsy_leaf_skipped
    [("vendor", .dict [("name", .dict [("value", .str "")])]), ("total", .num 0)]
    ["vendor", "name"] ["missing"] [["total"]] (by decide) (by decide)
  exact ⟨h.1, h.2.1 (by decide)⟩

/-! ## Generic regex-search machinery

Every compiled pattern of `patterns.py` (and the inline `re.search`/`re.sub`
calls) is embedded as a specialised matcher over `List Char`.  A matcher
receives the character preceding the current position (`Option Char`, for
word-boundary `\b` tests) and the remaining input, and returns the consumed
length together with pattern-specific data.  The drivers below reproduce
`re.search` (leftmost match), `re.finditer`/`re.findall` (leftmost,
non-overlapping, continuing at the match end) and `re.sub`. -/

/-- `re.search`: leftmost position where the matcher succeeds. -/
def scanSearch {α : Type} (matchAt : Option Char → List Char → Option α) :
    Option Char → List Char → Option α
  | prev, [] => matchAt prev []
  | prev, c :: cs =>
    match matchAt prev (c :: cs) with
    | some r => some r
    | none => scanSearch matchAt (some c) cs

/-- `re.search` returning the absolute start index of the match as well. -/
def scanSearchIdx {α : Type} (matchAt : Option Char → List Char → Option α) :
    Nat → Option Char → List Char → Option (Nat × α)
  | _, prev, [] => (matchAt prev []).map (fun a => (0, a))
  | i, prev, c :: cs =>
    match matchAt prev (c :: cs) with
    | some r => some (i, r)
    | none => scanSearchIdx matchAt (i + 1) (some c) cs

/-- `re.finditer`: all matches with their start indices, non-overlapping,
resuming right after each match (fuel-driven; every matcher used consumes at
least one character). -/
def scanAll {α : Type} (matchAt : Option Char → List Char → Option (Nat × α)) :
    Nat → Nat → Option Char → List Char → List (Nat × α)
  | 0, _, _, _ => []
  | _ + 1, _, _, [] => []
  | fuel + 1, i, prev, c :: cs =>
    match matchAt prev (c :: cs) with
    | some (len, a) =>
      let len' := max len 1
      (i, a) :: scanAll matchAt fuel (i + len') (((c :: cs).take len').getLast?.elim prev some)
        ((c :: cs).drop len')
    | none => scanAll matchAt fuel (i + 1) (some c) cs

/-- `re.sub`: replace every (non-overlapping, leftmost) match by its
replacement (fuel-driven). -/
def scanSub (matchAt : Option Char → List Char → Option (Nat × List Char)) :
    Nat → Option Char → List Char → List Char
  | 0, _, cs => cs
  | _ + 1, _, [] => []
  | fuel + 1, prev, c :: cs =>
    match matchAt prev (c :: cs) with
    | some (len, rep) =>
      let len' := max len 1
      rep ++ scanSub matchAt fuel (((c :: cs).take len').getLast?.elim prev some)
        ((c :: cs).drop len')
    | none => c :: scanSub matchAt fuel (some c) cs

/-- Case-insensitive literal: consume `lit` (given lowercase) ignoring case. -/
def eatLitCI : List Char → List Char → Option (List Char)
  | [], cs => some cs
  | _ :: _, [] => none
  | l :: ls, c :: cs => if c.toLower == l then eatLitCI ls cs else none

/-- Case-sensitive literal. -/
def eatLitCS : List Char → List Char → Option (List Char)
  | [], cs => some cs
  | _ :: _, [] => none
  | l :: ls, c :: cs => if c == l then eatLitCS ls cs else none

/-- `\s+` (greedy, for contexts where what follows cannot match whitespace). -/
def eatWs1 (cs : List Char) : Option (List Char) :=
  match cs with
  | c :: _ => if pyIsSpace c then some (cs.dropWhile pyIsSpace) else none
  | [] => none

/-- `\s*` (greedy, same proviso). -/
def eatWs0 (cs : List Char) : List Char :=
  cs.dropWhile pyIsSpace

/-- Is this position a `\b` boundary before a word character? -/
def atWordStart (prev : Option Char) : Bool :=
  match prev with
  | none => true
  | some c => !isWordChar c

/-- The backtracking of `\s*` directly before a `(.+?)`/`([^\n]+)` capture when
the input ends inside the whitespace: the capture becomes the last consumed
whitespace character that is not a newline, if any. -/
def giveBackOneWs (ws : List Char) : Option (List Char) :=
  match ws.reverse.dropWhile (fun c => c == '\n') with
  | [] => none
  | c :: _ => some [c]

/-- `\s*:?\s*([^\n]+)` with full backtracking: the tail of the current line
after optional whitespace and an optional colon (a capture of at least one
non-newline character is required). -/
def captureAfterColonWs (cs : List Char) : Option (List Char) :=
  let ws1 := cs.takeWhile pyIsSpace
  let r1 := cs.drop ws1.length
  match r1 with
  | ':' :: r2 =>
    let ws2 := r2.takeWhile pyIsSpace
    let r3 := r2.drop ws2.length
    let tl := r3.takeWhile (fun c => c ≠ '\n')
    if !tl.isEmpty then some tl
    else
      match giveBackOneWs ws2 with
      | some cap => some cap
      | none => some (':' :: (r2.takeWhile (fun c => c ≠ '\n')))
  | _ =>
    let tl := r1.takeWhile (fun c => c ≠ '\n')
    if !tl.isEmpty then some tl
    else giveBackOneWs ws1

/-! ## Embedded patterns from `patterns.py` and inline regexes -/

/-- The number core `\d{1,3}(?:,\d{3})*` of the price pattern: consumed
characters (group text). -/
def eatCommaGroups : List Char → List Char
  | ',' :: a :: b :: c :: rest =>
    if a.isDigit && b.isDigit && c.isDigit then
      ',' :: a :: b :: c :: eatCommaGroups rest
    else []
  | _ => []

/-- `\d{1,3}(?:,\d{3})*(?:\.\d{2})?` at the current position: the matched
group text, or `none`. -/
def matchAmountCore (cs : List Char) : Option (List Char) :=
  let d1 := (cs.takeWhile Char.isDigit).take 3
  if d1.isEmpty then none
  else
    let rest1 := cs.drop d1.length
    let grps := eatCommaGroups rest1
    let rest2 := rest1.drop grps.length
    let frac :=
      match rest2 with
      | '.' :: x :: y :: _ => if x.isDigit && y.isDigit then ['.', x, y] else []
      | _ => []
    some (d1 ++ grps ++ frac)

/-- One price-pattern hit: start index in the line, matched group text, and
whether the full match begins with a `-` sign. -/
structure PriceHit where
  start : Nat
  group : List Char
  negSign : Bool
deriving Repr, DecidableEq

/-- `[-\+]?\$?\s*(\d{1,3}(?:,\d{3})*(?:\.\d{2})?)` at the current position
(`patterns.py:49`): consumed length, group, leading-minus flag. -/
def matchPriceAt (_ : Option Char) (cs : List Char) : Option (Nat × (List Char × Bool)) :=
  let (neg, n1, cs1) :=
    match cs with
    | '-' :: t => (true, 1, t)
    | '+' :: t => (false, 1, t)
    | _ => (false, 0, cs)
  let (n2, cs2) :=
    match cs1 with
    | '$' :: t => (n1 + 1, t)
    | _ => (n1, cs1)
  let ws := cs2.takeWhile pyIsSpace
  let cs3 := cs2.drop ws.length
  match matchAmountCore cs3 with
  | none => none
  | some grp => some (n2 + ws.length + grp.length, (grp, neg))

/-- All price-pattern matches of a line (`finditer`). -/
def priceHits (line : List Char) : List PriceHit :=
  (scanAll matchPriceAt line.length 0 none line).map
    (fun p => ⟨p.1, p.2.1, p.2.2⟩)

/-- `\$?\s*(\d{1,3}(?:,\d{3})*(?:\.\d{2})?)` — the `amount_pattern` used by the
invoice-total and tax/subtotal OCR helpers; `findall` returns the groups. -/
def matchAmountNoSignAt (_ : Option Char) (cs : List Char) : Option (Nat × List Char) :=
  let (n1, cs1) :=
    match cs with
    | '$' :: t => (1, t)
    | _ => (0, cs)
  let ws := cs1.takeWhile pyIsSpace
  let cs2 := cs1.drop ws.length
  match matchAmountCore cs2 with
  | none => none
  | some grp => some (n1 + ws.length + grp.length, grp)

/-- `re.findall(amount_pattern, line)`. -/
def amountFindall (line : List Char) : List (List Char) :=
  (scanAll matchAmountNoSignAt line.length 0 none line).map (·.2)

/-- Float value of a regex amount group after `replace(',','')` —
the group shape guarantees the parse succeeds. -/
def ratOfAmountGroup (grp : List Char) : Option Rat :=
  pyFloatOfString (String.mk (grp.filter (fun c => c ≠ ',')))

/-! ## Line items -/

/-- One invoice line item (the six-field dict shape used across the code). -/
structure LineItem where
  sku : String
  description : String
  quantity : Rat
  price : Rat
  tax_rate : Rat
  total : Rat
deriving Repr, DecidableEq

/-! ## `ImprovedLineItemExtractor` (improved_line_item_extractor.py) -/

/-- `_is_year_code`: a 4-digit code in [1900, 2100]. -/
def isYearCode (code : String) : Bool :=
  code.data.length == 4 && pyIsDigitStr code &&
    (1900 ≤ digitsToNat code.data && digitsToNat code.data ≤ 2100)

/-- `_is_valid_sku_code` (improved_line_item_extractor.py:65-87). -/
def isValidSkuCode (code : String) : Bool :=
  !(pyContains code "/") && !(pyContains code "-") &&
    !(code.data.length < 3) && !(isYearCode code)

/-- `\((\d{3,12})\)` at the current position: the digit group. -/
def matchParenDigitsAt (_ : Option Char) (cs : List Char) : Option (Nat × List Char) :=
  match cs with
  | '(' :: rest =>
    let ds := rest.takeWhile Char.isDigit
    if 3 ≤ ds.length && ds.length ≤ 12 then
      match rest.drop ds.length with
      | ')' :: _ => some (ds.length + 2, ds)
      | _ => none
    else none
  | _ => none

/-- `extract_sku_from_description` (improved_line_item_extractor.py:20-63):
first parenthetical 3–12 digit code passing `_is_valid_sku_code`. -/
def extractSkuFromDescription (description : String) : String :=
  if description.isEmpty then ""
  else
    let hits := (scanAll matchParenDigitsAt description.data.length 0 none
      description.data).map (·.2)
    match hits.find? (fun m => isValidSkuCode (String.mk m)) with
    | some m => String.mk m
    | none => ""

/-- `_is_tax_line_item` (improved_line_item_extractor.py:108-120). -/
def isTaxLineItem (it : LineItem) : Bool :=
  let d := pyLower it.description
  ["tax", "carrier tax", "carrier taxes", "sales tax"].any (fun k => pyContains d k)

/-- `_is_discount_line_item` (improved_line_item_extractor.py:122-135). -/
def isDiscountLineItem (it : LineItem) : Bool :=
  let d := pyLower it.description
  ["discount", "credit", "refund", "deduction", "adjustment"].any (fun k => pyContains d k)
    || decide (it.total < 0)

/-- `_extract_sku_for_item` (improved_line_item_extractor.py:603-630). -/
def extractSkuForItem (description existingSku : String) (isTaxOrDiscount : Bool) : String :=
  if isTaxOrDiscount then ""
  else if !existingSku.isEmpty then existingSku
  else extractSkuFromDescription description

/-- `_determine_item_tax_rate` (improved_line_item_extractor.py:748-764):
always `0.0` — taxes are dedicated line items, never a percentage. -/
def determineItemTaxRate (_isTax _isDiscount : Bool) (_taxRate : Rat) : Rat :=
  0

/-- `_ensure_price_consistency` (improved_line_item_extractor.py:766-783). -/
def ensurePriceConsistency (price total : Rat) : Rat :=
  if total < 0 ∧ price > 0 then -(pyAbs price) else price

/-! ### `_clean_line_item_description` and its regexes -/

/-- Case-insensitive prefix test. -/
def startsWithCIL : List Char → List Char → Bool
  | [], _ => true
  | _ :: _, [] => false
  | n :: ns, h :: hs => h.toLower == n.toLower && startsWithCIL ns hs

/-- `\([^)]*\)` at the current position: the full parenthetical span. -/
def matchParenSpanAt (_ : Option Char) (cs : List Char) : Option (Nat × List Char) :=
  match cs with
  | '(' :: rest =>
    if rest.any (fun c => c == ')') then
      let content := rest.takeWhile (fun c => c ≠ ')')
      some (content.length + 2, '(' :: (content ++ [')']))
    else none
  | _ => none

/-- `(\d+\s*Gbps\s*Fiber)` (IGNORECASE) at the current position. -/
def matchGbpsFiberAt (_ : Option Char) (cs : List Char) : Option (Nat × List Char) :=
  let d := cs.takeWhile Char.isDigit
  if d.isEmpty then none
  else
    let r1 := cs.drop d.length
    let w1 := r1.takeWhile pyIsSpace
    match eatLitCI "gbps".data (r1.drop w1.length) with
    | none => none
    | some r2 =>
      let w2 := r2.takeWhile pyIsSpace
      match eatLitCI "fiber".data (r2.drop w2.length) with
      | none => none
      | some _ =>
        let len := d.length + w1.length + 4 + w2.length + 5
        some (len, cs.take len)

/-- `(\d+\s*Gbps)` (IGNORECASE) at the current position. -/
def matchGbpsAt (_ : Option Char) (cs : List Char) : Option (Nat × List Char) :=
  let d := cs.takeWhile Char.isDigit
  if d.isEmpty then none
  else
    let r1 := cs.drop d.length
    let w1 := r1.takeWhile pyIsSpace
    match eatLitCI "gbps".data (r1.drop w1.length) with
    | none => none
    | some _ =>
      let len := d.length + w1.length + 4
      some (len, cs.take len)

/-- `(\d+\s*Mbps)` (IGNORECASE) at the current position. -/
def matchMbpsAt (_ : Option Char) (cs : List Char) : Option (Nat × List Char) :=
  let d := cs.takeWhile Char.isDigit
  if d.isEmpty then none
  else
    let r1 := cs.drop d.length
    let w1 := r1.takeWhile pyIsSpace
    match eatLitCI "mbps".data (r1.drop w1.length) with
    | none => none
    | some _ =>
      let len := d.length + w1.length + 4
      some (len, cs.take len)

/-- The three bandwidth patterns, in source order. -/
def bandwidthMatchers : List (Option Char → List Char → Option (Nat × List Char)) :=
  [matchGbpsFiberAt, matchGbpsAt, matchMbpsAt]

/-- All matches of one bandwidth pattern over `content`, appended to `acc`
stripped and deduplicated (the inner loop of the cleaning step 1). -/
def addSpecs (m : Option Char → List Char → Option (Nat × List Char))
    (content : List Char) (acc : List String) : List String :=
  ((scanAll m content.length 0 none content).map (·.2)).foldl
    (fun a g =>
      let s := pyStrip (String.mk g)
      if !s.isEmpty && !(a.contains s) then a ++ [s] else a) acc

/-- Bandwidth specs collected from one parenthetical span. -/
def collectBandwidthSpecs (content : List Char) (acc : List String) : List String :=
  bandwidthMatchers.foldl (fun a m => addSpecs m content a) acc

/-- `re.search(rf'\b{re.escape(spec)}\b', hay, re.IGNORECASE)` as a Bool, for
specs that start and end with word characters. -/
def wordBoundedSearchCI (hay needle : List Char) : Bool :=
  go none hay
where
  go : Option Char → List Char → Bool
  | prev, h =>
    (atWordStart prev && startsWithCIL needle h &&
      (match h.drop needle.length with
       | [] => true
       | c :: _ => !isWordChar c)) ||
    (match h with
     | [] => false
     | c :: t => go (some c) t)

/-- The out-of-parentheses bandwidth collection (cleaning step 1, second
loop): a spec found anywhere in the description is added unless already
collected or already present word-bounded in the parenthesis-stripped text. -/
def outsideBandwidthSpecs (dcs noParen : List Char) (acc : List String) : List String :=
  bandwidthMatchers.foldl
    (fun a m =>
      ((scanAll m dcs.length 0 none dcs).map (·.2)).foldl
        (fun a' g =>
          let s := pyStrip (String.mk g)
          if !s.isEmpty && !(a'.contains s) && !(wordBoundedSearchCI noParen s.data) then
            a' ++ [s]
          else a') a) acc

/-- `re.sub(r'\bto\s+[A-Za-z0-9]{6,15}\b', '', ..., re.IGNORECASE)` matcher. -/
def toCodeSubM (prev : Option Char) (cs : List Char) : Option (Nat × List Char) :=
  if !atWordStart prev then none
  else
    match eatLitCI "to".data cs with
    | none => none
    | some r1 =>
      match eatWs1 r1 with
      | none => none
      | some r2 =>
        let run := r2.takeWhile isWordChar
        if run.all Char.isAlphanum && 6 ≤ run.length && run.length ≤ 15 then
          some (2 + (r1.length - r2.length) + run.length, [])
        else none

/-- `re.sub(r'\b\d+[A-Za-z0-9]{5,14}\b', '', ...)` matcher: removes a maximal
word run that starts with a digit and whose length `L` satisfies
`6 ≤ L ≤ (leading digits) + 14`. -/
def digitCodeSubM (prev : Option Char) (cs : List Char) : Option (Nat × List Char) :=
  if !atWordStart prev then none
  else
    match cs with
    | [] => none
    | c :: _ =>
      if !c.isDigit then none
      else
        let run := cs.takeWhile isWordChar
        let dcount := (cs.takeWhile Char.isDigit).length
        if run.all Char.isAlphanum && 6 ≤ run.length && run.length ≤ dcount + 14 then
          some (run.length, [])
        else none

/-- `re.sub(r'\b[A-Za-z]{2,}\d+[A-Za-z]{2,}\b', '', ...)` matcher: removes a
maximal word run of the exact shape letters≥2, digits≥1, letters≥2. -/
def midCodeSubM (prev : Option Char) (cs : List Char) : Option (Nat × List Char) :=
  if !atWordStart prev then none
  else
    let run := cs.takeWhile isWordChar
    let a := run.takeWhile Char.isAlpha
    let r1 := run.drop a.length
    let d := r1.takeWhile Char.isDigit
    let r2 := r1.drop d.length
    let b := r2.takeWhile Char.isAlpha
    let r3 := r2.drop b.length
    if 2 ≤ a.length && 1 ≤ d.length && 2 ≤ b.length && r3.isEmpty then
      some (run.length, [])
    else none

/-- `re.sub(r'\s*\|\s*', ', ', ...)` matcher. -/
def pipeSubM (_ : Option Char) (cs : List Char) : Option (Nat × List Char) :=
  let a := cs.takeWhile pyIsSpace
  match cs.drop a.length with
  | '|' :: rest =>
    let b := rest.takeWhile pyIsSpace
    some (a.length + 1 + b.length, (", ").data)
  | _ => none

/-- `re.sub(r',\s*,', ',', ...)` matcher. -/
def doubleCommaSubM (_ : Option Char) (cs : List Char) : Option (Nat × List Char) :=
  match cs with
  | ',' :: rest =>
    let w := rest.takeWhile pyIsSpace
    match rest.drop w.length with
    | ',' :: _ => some (2 + w.length, [','])
    | _ => none
  | _ => none

/-- `re.sub(r',\s*$', '', ...)` matcher (no MULTILINE: matches a comma whose
remaining suffix is all whitespace). -/
def trailingCommaSubM (_ : Option Char) (cs : List Char) : Option (Nat × List Char) :=
  match cs with
  | ',' :: rest =>
    if (rest.dropWhile pyIsSpace).isEmpty then some (cs.length, []) else none
  | _ => none

/-- `re.sub(r'^\s*,\s*', '', ...)` (anchored, applies at most once). -/
def stripLeadingComma (cs : List Char) : List Char :=
  let w1 := cs.takeWhile pyIsSpace
  match cs.drop w1.length with
  | ',' :: rest => rest.dropWhile pyIsSpace
  | _ => cs

/-- The parenthetical-removal `re.sub` matcher (replacement empty). -/
def parenRemoveSubM (prev : Option Char) (cs : List Char) : Option (Nat × List Char) :=
  (matchParenSpanAt prev cs).map (fun p => (p.1, []))

/-- `_clean_line_item_description` (improved_line_item_extractor.py:632-746):
remember bandwidth specs, strip parentheticals and ID-like codes, normalise
pipes/whitespace/commas, re-append missing bandwidth specs, and fall back to
the original description when everything was cleaned away. -/
def cleanLineItemDescription (description : String) : String :=
  if description.isEmpty then description
  else
    let dcs := description.data
    let spans := (scanAll matchParenSpanAt dcs.length 0 none dcs).map (·.2)
    let specs1 := spans.foldl (fun acc span => collectBandwidthSpecs span acc) []
    let noParen := dcs.filter (fun c => c ≠ '(' && c ≠ ')')
    let specs := outsideBandwidthSpecs dcs noParen specs1
    let c1 := scanSub parenRemoveSubM dcs.length none dcs
    let c2 := scanSub toCodeSubM c1.length none c1
    let c3 := scanSub digitCodeSubM c2.length none c2
    let c4 := scanSub midCodeSubM c3.length none c3
    let c5 := scanSub pipeSubM c4.length none c4
    let c6 := (pyCollapseWs (String.mk c5)).data
    let c7 := scanSub doubleCommaSubM c6.length none c6
    let c8 := scanSub trailingCommaSubM c7.length none c7
    let c9 := pyStripL (stripLeadingComma c8)
    let c10 := specs.foldl (fun cur spec =>
      if wordBoundedSearchCI cur spec.data then cur
      else if cur.isEmpty then spec.data else cur ++ (", ").data ++ spec.data) c9
    let c11 := (pyCollapseWs (String.mk c10)).data
    let c12 := scanSub doubleCommaSubM c11.length none c11
    if c12.isEmpty then description else String.mk c12

/-- `_improve_single_line_item` (improved_line_item_extractor.py:551-601);
the invoice-level tax rate passed in is always `0.0`
(`extract_and_improve_line_items`, line 545). -/
def improveSingleLineItem (it : LineItem) : LineItem :=
  let isTax := isTaxLineItem it
  let isDisc := isDiscountLineItem it
  let sku := extractSkuForItem it.description it.sku (isTax || isDisc)
  let cleanDesc := cleanLineItemDescription it.description
  let taxRate := determineItemTaxRate isTax isDisc 0
  let price := ensurePriceConsistency it.price it.total
  { sku := sku, description := cleanDesc, quantity := it.quantity,
    price := price, tax_rate := taxRate, total := it.total }

/-- `extract_and_improve_line_items` (improved_line_item_extractor.py:521-549)
(the `response`/`ocr_text` arguments are unused by the source). -/
def extractAndImproveLineItems (items : List LineItem) : List LineItem :=
  items.map improveSingleLineItem

/-! ### Invoice-total helpers (C9) -/

/-- `float(x)` applied to a structured leaf. -/
def pyFloatOfJVal : JVal → Option Rat
  | .num q => some q
  | .str s => pyFloatOfString s
  | .jbool b => some (if b then 1 else 0)
  | _ => none

/-- `_get_invoice_total_from_response` (improved_line_item_extractor.py:167-195). -/
def getInvoiceTotalFromResponse : Option (List (String × JVal)) → Option Rat
  | none => none
  | some r =>
    if r.isEmpty then none
    else
      let raw :=
        match dictGet r "total" with
        | some (.dict d) =>
          match dictGet d "value" with
          | some v => some v
          | none => some (.dict d)
        | x => x
      match raw with
      | none => none
      | some .null => none
      | some v =>
        match pyFloatOfJVal v with
        | none => none
        | some t => if t > 0 then some t else none

/-- The totals keywords of `_get_invoice_total_from_ocr`. -/
def totalKeywordsOcr : List String :=
  ["total", "grand total", "invoice total", "amount due", "balance due"]

/-- One iteration of the `_get_invoice_total_from_ocr` line loop. -/
def invoiceTotalFromLine (line : String) : Option Rat :=
  let lower := pyStrip (pyLower line)
  if pyContains lower "subtotal" then none
  else if !(totalKeywordsOcr.any (fun k => pyContains lower k)) then none
  else
    match (amountFindall line.data).getLast? with
    | none => none
    | some grp =>
      match ratOfAmountGroup grp with
      | none => none
      | some t => if t > 0 then some t else none

/-- First line producing a total. -/
def firstInvoiceTotalLine : List String → Option Rat
  | [] => none
  | l :: ls =>
    match invoiceTotalFromLine l with
    | some t => some t
    | none => firstInvoiceTotalLine ls

/-- `_get_invoice_total_from_ocr` (improved_line_item_extractor.py:197-235). -/
def getInvoiceTotalFromOcr : Option String → Option Rat
  | none => none
  | some t => if t.isEmpty then none else firstInvoiceTotalLine (pySplitNl t)

/-- `_calculate_invoice_total_from_line_items`
(improved_line_item_extractor.py:237-255). -/
def calculateInvoiceTotalFromLineItems (items : List LineItem) : Option Rat :=
  if items.isEmpty then none
  else
    let s := (items.map (·.total)).sum
    if pyAbs s > 0 then some (pyAbs s) else none

/-- `_get_invoice_total` (improved_line_item_extractor.py:137-165):
response, then OCR, then line-item sum. -/
def getInvoiceTotal (response : Option (List (String × JVal))) (ocr : Option String)
    (items : List LineItem) : Option Rat :=
  match getInvoiceTotalFromResponse response with
  | some t => some t
  | none =>
    match getInvoiceTotalFromOcr ocr with
    | some t => some t
    | none => calculateInvoiceTotalFromLineItems items

/-- The invoice-total resolution as literally worded by claim C9 (spec §4.5),
kept for comparison against the code: the structured `total` field
(transparently unwrapping a `value` wrapper) is used first whenever it parses,
with no positivity condition. -/
def claimStructuredTotal (response : Option (List (String × JVal))) : Option Rat :=
  match response with
  | none => none
  | some r =>
    match dictGet r "total" with
    | some (.dict d) =>
      match dictGet d "value" with
      | some v => pyFloatOfJVal v
      | none => pyFloatOfJVal (.dict d)
    | some v => pyFloatOfJVal v
    | none => none

/-! ## `LineItemExtractor.extract_from_ocr` (line_item_extractor.py:46-473) -/

/-- The character class `[A-Z0-9\-]` with `re.IGNORECASE` (= alphanumeric or
hyphen). -/
def classAlnumDash (c : Char) : Bool :=
  c.isAlphanum || c == '-'

/-- The case-sensitive character class `[A-Z0-9\-]`. -/
def classUpperDash (c : Char) : Bool :=
  c.isUpper || c.isDigit || c == '-'

/-- `\s*:?\s*` followed by a required nonempty `[A-Z0-9\-]+` run (IGNORECASE):
shared tail of the three labelled SKU patterns. -/
def eatColonClassRun (cs : List Char) : Option (List Char) :=
  let r1 := eatWs0 cs
  let r2 :=
    match r1 with
    | ':' :: t => eatWs0 t
    | _ => r1
  let run := r2.takeWhile classAlnumDash
  if run.isEmpty then none else some run

/-- `sku\s*:?\s*([A-Z0-9\-]+)` (IGNORECASE) at the current position. -/
def skuLabel0At (_ : Option Char) (cs : List Char) : Option (List Char) :=
  match eatLitCI "sku".data cs with
  | none => none
  | some r => eatColonClassRun r

/-- `item\s*#\s*:?\s*([A-Z0-9\-]+)` (IGNORECASE) at the current position. -/
def skuLabel1At (_ : Option Char) (cs : List Char) : Option (List Char) :=
  match eatLitCI "item".data cs with
  | none => none
  | some r =>
    match eatWs0 r with
    | '#' :: t => eatColonClassRun t
    | _ => none

/-- `product\s*code\s*:?\s*([A-Z0-9\-]+)` (IGNORECASE) at the current position. -/
def skuLabel2At (_ : Option Char) (cs : List Char) : Option (List Char) :=
  match eatLitCI "product".data cs with
  | none => none
  | some r =>
    match eatLitCI "code".data (eatWs0 r) with
    | none => none
    | some r2 => eatColonClassRun r2

/-- The first three SKU patterns of `patterns.py:55-58` as searches. -/
def skuLabelSearches (line : List Char) : List (Option (List Char)) :=
  [scanSearch skuLabel0At none line,
   scanSearch skuLabel1At none line,
   scanSearch skuLabel2At none line]

/-- `re.search(r'^([A-Z0-9\-]{3,15})\s+', line)` (case-sensitive, anchored):
a maximal run of 3–15 upper/digit/hyphen characters followed by whitespace. -/
def codeAtStart (line : List Char) : Option (List Char) :=
  let run := line.takeWhile classUpperDash
  if 3 ≤ run.length && run.length ≤ 15 then
    match line.drop run.length with
    | c :: _ => if pyIsSpace c then some run else none
    | [] => none
  else none

/-- `\(([A-Z0-9\-]{3,20})\)` (case-sensitive) at the current position. -/
def parenCodeAt (_ : Option Char) (cs : List Char) : Option (List Char) :=
  match cs with
  | '(' :: rest =>
    let run := rest.takeWhile classUpperDash
    if 3 ≤ run.length && run.length ≤ 20 then
      match rest.drop run.length with
      | ')' :: _ => some run
      | _ => none
    else none
  | _ => none

/-- `re.match(r'^\d+$', s)` (`$` may precede one final newline). -/
def pyFullDigits (cs : List Char) : Bool :=
  let run := cs.takeWhile Char.isDigit
  !run.isEmpty && (cs.drop run.length == [] || cs.drop run.length == ['\n'])

/-- The date-like prefix test on SKU candidates: 1–2 digits, then a slash or
dash, then a digit (the anchored short-date regex of line 158). -/
def matchShortDate (cs : List Char) : Bool :=
  let run := cs.takeWhile Char.isDigit
  1 ≤ run.length && run.length ≤ 2 &&
    (match cs.drop run.length with
     | sep :: d :: _ => (sep == '/' || sep == '-') && d.isDigit
     | _ => false)

/-- `re.match(r'^(\d+\.?\d*)\s+', line)`: the quantity group at line start, or
`none`. -/
def qtyAtStart (line : List Char) : Option (List Char) :=
  let d1 := line.takeWhile Char.isDigit
  if d1.isEmpty then none
  else
    let r1 := line.drop d1.length
    match r1 with
    | '.' :: r2 =>
      let d2 := r2.takeWhile Char.isDigit
      match r2.drop d2.length with
      | c :: _ => if pyIsSpace c then some (d1 ++ '.' :: d2) else none
      | [] => none
    | c :: _ => if pyIsSpace c then some d1 else none
    | [] => none

/-- `re.match(r'^\d+\.?\d*\s+', line)` as a Bool. -/
def matchesQtyStart (line : List Char) : Bool :=
  (qtyAtStart line).isSome

/-- `\b(\d+\.\d+)\s+(?![$])` at the current position. -/
def decQtyAt (prev : Option Char) (cs : List Char) : Option (List Char) :=
  if !atWordStart prev then none
  else
    let d1 := cs.takeWhile Char.isDigit
    if d1.isEmpty then none
    else
      match cs.drop d1.length with
      | '.' :: r2 =>
        let d2 := r2.takeWhile Char.isDigit
        if d2.isEmpty then none
        else
          let r3 := r2.drop d2.length
          let ws := r3.takeWhile pyIsSpace
          if ws.isEmpty then none
          else
            match r3.drop ws.length with
            | '$' :: _ => if 2 ≤ ws.length then some (d1 ++ '.' :: d2) else none
            | _ => some (d1 ++ '.' :: d2)
      | _ => none

/-- `re.search(r'^\s*(\d+\.\d+)\s+', line)` (anchored). -/
def decQtyAnchored (line : List Char) : Option (List Char) :=
  let r0 := eatWs0 line
  let d1 := r0.takeWhile Char.isDigit
  if d1.isEmpty then none
  else
    match r0.drop d1.length with
    | '.' :: r2 =>
      let d2 := r2.takeWhile Char.isDigit
      if d2.isEmpty then none
      else
        match (r2.drop d2.length) with
        | c :: _ => if pyIsSpace c then some (d1 ++ '.' :: d2) else none
        | [] => none
    | _ => none

/-- `(\d+\.?\d*)` numeric group followed by `\s*%`: the main
`tax_rate_pattern` (`patterns.py:52`) at the current position. -/
def taxRateAt (_ : Option Char) (cs : List Char) : Option (List Char) :=
  let d1 := cs.takeWhile Char.isDigit
  if d1.isEmpty then none
  else
    let r1 := cs.drop d1.length
    let (grp, r2) :=
      match r1 with
      | '.' :: t =>
        let d2 := t.takeWhile Char.isDigit
        (d1 ++ '.' :: d2, t.drop d2.length)
      | _ => (d1, r1)
    match eatWs0 r2 with
    | '%' :: _ => some grp
    | _ => none

/-- `tax\s*:?\s*(\d+\.?\d*)\s*%` (IGNORECASE) at the current position. -/
def altTax1At (_ : Option Char) (cs : List Char) : Option (List Char) :=
  match eatLitCI "tax".data cs with
  | none => none
  | some r =>
    let r1 := eatWs0 r
    let r2 :=
      match r1 with
      | ':' :: t => eatWs0 t
      | _ => r1
    taxRateAt none r2

/-- `tax\s+rate\s*:?\s*(\d+\.?\d*)\s*%` (IGNORECASE) at the current position. -/
def altTax2At (_ : Option Char) (cs : List Char) : Option (List Char) :=
  match eatLitCI "tax".data cs with
  | none => none
  | some r =>
    match eatWs1 r with
    | none => none
    | some r1 =>
      match eatLitCI "rate".data r1 with
      | none => none
      | some r2 =>
        let r3 := eatWs0 r2
        let r4 :=
          match r3 with
          | ':' :: t => eatWs0 t
          | _ => r3
        taxRateAt none r4

/-- `(\d+\.?\d*)\s*%\s+tax` (IGNORECASE) at the current position. -/
def altTax3At (_ : Option Char) (cs : List Char) : Option (List Char) :=
  let d1 := cs.takeWhile Char.isDigit
  if d1.isEmpty then none
  else
    let r1 := cs.drop d1.length
    let (grp, r2) :=
      match r1 with
      | '.' :: t =>
        let d2 := t.takeWhile Char.isDigit
        (d1 ++ '.' :: d2, t.drop d2.length)
      | _ => (d1, r1)
    match eatWs0 r2 with
    | '%' :: r3 =>
      match eatWs1 r3 with
      | none => none
      | some r4 =>
        match eatLitCI "tax".data r4 with
        | none => none
        | some _ => some grp
    | _ => none

/-- The discount/credit keywords used throughout `extract_from_ocr`. -/
def discountKeywords : List String :=
  ["discount", "credit", "refund", "deduction", "adjustment"]

/-- The shorter keyword list used in the description-merge branches
(line_item_extractor.py:372, 383, 395). -/
def discountKeywordsShort : List String :=
  ["discount", "credit", "refund", "deduction"]

/-- Index of the last occurrence of `needle` in `hay` (Python `str.rfind`),
`none` when absent. -/
def rfindSub (hay needle : List Char) : Option Nat :=
  go 0 hay none
where
  go : Nat → List Char → Option Nat → Option Nat
  | i, h, best =>
    let best' := if startsWithL needle h then some i else best
    match h with
    | [] => best'
    | _ :: t => go (i + 1) t best'

/-- The per-match negativity test of the price loop
(line_item_extractor.py:213-247): a leading `-` in the full match, a `-`
immediately (or one character with surrounding blanks) before the match, or a
discount keyword earlier in the line with no digits between it and the match. -/
def priceHitIsNegative (line : List Char) (hit : PriceHit) : Bool :=
  if hit.negSign then true
  else
    let m2 :=
      if hit.start > 0 then
        (match line.get? (hit.start - 1) with
         | some '-' => true
         | _ => false) ||
        (hit.start > 1 &&
          pyStripL ((line.drop (hit.start - 2)).take 2) == ['-'])
      else false
    if m2 then true
    else
      let before := (line.take hit.start).map Char.toLower
      let positions := discountKeywords.filterMap
        (fun kw => if containsL before kw.data then rfindSub before kw.data else none)
      match positions.max? with
      | none => false
      | some lastPos =>
        let between := before.drop lastPos
        !(between.any Char.isDigit)

/-- The signed price value of one hit. -/
def priceHitValue (line : List Char) (hit : PriceHit) : Option Rat :=
  match ratOfAmountGroup hit.group with
  | none => none
  | some v => some (if priceHitIsNegative line hit then -(pyAbs v) else v)

/-- All signed price values of a line (the `price_values` list).  The
negativity flip uses `price_val = -abs(price_val)`; since the parsed group is
nonnegative this equals negation. -/
def priceValues (line : List Char) : List Rat :=
  (priceHits line).filterMap (priceHitValue line)

/-- The totals-section indicator list (line_item_extractor.py:115-121). -/
def totalsIndicators : List String :=
  ["subtotal", "sub total", "sub-total",
   "tax", "sales tax", "tax amount",
   "total", "total due", "amount due", "balance",
   "grand total", "invoice total", "final total",
   "payment due", "amount owed"]

/-- `re.match(r'^(?:invoice|bill|statement)\s+' + indicator, line_lower)`. -/
def matchesPrefixedIndicator (lineLower : List Char) (indicator : List Char) : Bool :=
  [("invoice" : String), "bill", "statement"].any (fun p =>
    match eatLitCS p.data lineLower with
    | none => false
    | some r =>
      match eatWs1 r with
      | none => false
      | some r2 => (eatLitCS indicator r2).isSome)

/-- The totals-section test of `extract_from_ocr`
(line_item_extractor.py:123-131): for some indicator, the lowered stripped
line starts with it, or starts with an `invoice|bill|statement` prefix before
it, or contains it while the line also contains one of `:`, `=`, `$`. -/
def isTotalsSection (lineLower : List Char) : Bool :=
  totalsIndicators.any (fun ind =>
    startsWithL ind.data lineLower ||
    matchesPrefixedIndicator lineLower ind.data ||
    (containsL lineLower ind.data &&
      [(":" : String), "=", "$"].any (fun d => containsL lineLower d.data)))

/-- The totals-section condition as worded by claim C8 / spec §4.4
(kept for comparison against the code): start-anchored (or
invoice/bill/statement-prefixed) indicator AND a delimiter in the line. -/
def claimTotalsCondition (lineLower : List Char) : Bool :=
  totalsIndicators.any (fun ind =>
    (startsWithL ind.data lineLower || matchesPrefixedIndicator lineLower ind.data)) &&
  [(":" : String), "=", "$"].any (fun d => containsL lineLower d.data)

/-! ### The segmenter state machine -/

/-- The `current_item` accumulator: a Python dict whose keys appear only once
set. -/
structure PartialItem where
  sku : Option String := none
  description : Option String := none
  quantity : Option Rat := none
  price : Option Rat := none
  tax_rate : Option Rat := none
  total : Option Rat := none
deriving Repr, DecidableEq

/-- Python truthiness of `current_item.get(k)` for numeric fields. -/
def truthyR : Option Rat → Bool
  | none => false
  | some q => decide (q ≠ 0)

/-- Python truthiness of `current_item.get(k)` for string fields. -/
def truthyS : Option String → Bool
  | none => false
  | some s => !s.isEmpty

/-- `bool(current_item)`: some key is present. -/
def hasAnyKey (it : PartialItem) : Bool :=
  it.sku.isSome || it.description.isSome || it.quantity.isSome ||
    it.price.isSome || it.tax_rate.isSome || it.total.isSome

/-- `any(current_item.values())`: some present value is truthy. -/
def anyValues (it : PartialItem) : Bool :=
  truthyS it.sku || truthyS it.description || truthyR it.quantity ||
    truthyR it.price || truthyR it.tax_rate || truthyR it.total

/-- `current_item.get('description', '')`. -/
def descOr (it : PartialItem) : String :=
  it.description.getD ""

/-- The SKU-extraction block of the loop (line_item_extractor.py:139-165). -/
def skuBlock (line : List Char) (it : PartialItem) : PartialItem :=
  if truthyS it.sku then it
  else
    let labelled := (skuLabelSearches line).filterMap (fun r =>
      match r with
      | some g =>
        let cand := pyStrip (String.mk g)
        if 3 ≤ cand.data.length && cand.data.length ≤ 20 then some cand else none
      | none => none)
    match labelled.head? with
    | some cand => { it with sku := some cand }
    | none =>
      let fromStart :=
        match codeAtStart line with
        | some run =>
          let cand := pyStrip (String.mk run)
          if !pyFullDigits cand.data && !matchShortDate cand.data then some cand
          else none
        | none => none
      match fromStart with
      | some cand => { it with sku := some cand }
      | none =>
        match scanSearch parenCodeAt none line with
        | some g => { it with sku := some (pyStrip (String.mk g)) }
        | none => it

/-- The quantity-extraction block (line_item_extractor.py:167-198). -/
def qtyBlock (line : List Char) (it : PartialItem) : PartialItem :=
  if truthyR it.quantity then it
  else
    let it1 :=
      match qtyAtStart line with
      | some g =>
        (match pyFloatOfString (String.mk g) with
         | some v =>
           if mkRat 1 100 ≤ v ∧ v ≤ 1000000 then { it with quantity := some v } else it
         | none => it)
      | none => it
    if truthyR it1.quantity then it1
    else
      let cands := [scanSearch decQtyAt none line, decQtyAnchored line]
      let found := cands.filterMap (fun r =>
        match r with
        | some g =>
          (match pyFloatOfString (String.mk g) with
           | some v => if mkRat 1 100 ≤ v ∧ v ≤ 1000000 then some v else none
           | none => none)
        | none => none)
      match found.head? with
      | some v => { it1 with quantity := some v }
      | none => it1

/-- The price-extraction block (line_item_extractor.py:200-298). -/
def priceBlock (line : List Char) (it : PartialItem) : PartialItem :=
  let vals := priceValues line
  match vals with
  | [] => it
  | v0 :: _ =>
    let isDiscountLine :=
      discountKeywords.any (fun kw => pyContains (pyLower (descOr it)) kw) ||
      discountKeywords.any (fun kw => containsL (line.map Char.toLower) kw.data)
    let it1 :=
      if !truthyR it.price then
        { it with price := some (if isDiscountLine then -(pyAbs v0) else v0) }
      else it
    let it2 :=
      if 1 < vals.length ∧ !truthyR it1.total then
        let vLast := vals.getLast!
        { it1 with total := some (if isDiscountLine then -(pyAbs vLast) else vLast) }
      else if !truthyR it1.total then
        { it1 with total := some (if isDiscountLine then -(pyAbs v0) else v0) }
      else it1
    if truthyR it2.total ∧ truthyR it2.price then
      let t := it2.total.getD 0
      let p := it2.price.getD 0
      if t < 0 ∧ p > 0 then
        if discountKeywords.any (fun kw => pyContains (pyLower (descOr it2)) kw) then
          { it2 with price := some (-(pyAbs p)) }
        else it2
      else it2
    else it2

/-- The tax-rate block (line_item_extractor.py:300-332). -/
def taxBlock (line : List Char) (it : PartialItem) : PartialItem :=
  if truthyR it.tax_rate then it
  else
    match scanSearch taxRateAt none line with
    | some g =>
      (match pyFloatOfString (String.mk g) with
       | some v => if 0 ≤ v ∧ v ≤ 100 then { it with tax_rate := some v } else it
       | none => it)
    | none =>
      let alts := [scanSearch altTax1At none line, scanSearch altTax2At none line,
        scanSearch altTax3At none line]
      let found := alts.filterMap (fun r =>
        match r with
        | some g =>
          (match pyFloatOfString (String.mk g) with
           | some v => if 0 ≤ v ∧ v ≤ 100 then some v else none
           | none => none)
        | none => none)
      match found.head? with
      | some v => { it with tax_rate := some v }
      | none => it

/-- After a description merge: if the merged description now names a
discount, force a positive price negative (line_item_extractor.py:370-376 and
repeats). -/
def discountDescFix (it : PartialItem) : PartialItem :=
  if discountKeywordsShort.any (fun kw => pyContains (pyLower (descOr it)) kw) then
    if truthyR it.price ∧ it.price.getD 0 > 0 then
      { it with price := some (-(pyAbs (it.price.getD 0))) }
    else it
  else it

/-- `re.match(r'^\d+\.?\d*\s+[A-Z]', line)` as a Bool. -/
def matchesQtyStartUpper (line : List Char) : Bool :=
  match qtyAtStart line with
  | none => false
  | some g =>
    let rest := (line.drop g.length).dropWhile pyIsSpace
    match rest with
    | c :: _ => c.isUpper
    | [] => false

/-- The description block (line_item_extractor.py:334-402), returning the new
accumulator and an optional flushed item. -/
def descBlock (line : List Char) (it : PartialItem) :
    PartialItem × Option PartialItem :=
  let lineStr := String.mk line
  let lineClean := pyStrip (String.mk (line.filter (fun c => c ≠ '.' && c ≠ ',')))
  let hasText := line.any Char.isAlpha
  let isMostlyNumbers := 5 < ((lineClean.data.take 10).filter Char.isDigit).length
  let isLikelyDescription := hasText || (15 < line.length && !isMostlyNumbers)
  if isLikelyDescription then
    match it.description with
    | some d =>
      if !d.isEmpty then
        let looksLikeContinuation :=
          !matchesQtyStartUpper line ||
          line.length < 30 ||
          (match line with
           | c :: _ => c.isLower
           | [] => false) ||
          !([("transport" : String), "installation", "carrier", "discount"].any
            (fun kw => containsL (line.map Char.toLower) kw.data))
        if looksLikeContinuation then
          (discountDescFix { it with description := some (d ++ "\n" ++ lineStr) }, none)
        else if d.data.length < 50 then
          (discountDescFix { it with description := some (d ++ "\n" ++ lineStr) }, none)
        else
          ({ description := some lineStr },
            if anyValues it then some it else none)
      else
        -- falsy existing description: same as the no-description branch
        (discountDescFix { it with description := some lineStr }, none)
    | none =>
      (discountDescFix { it with description := some lineStr }, none)
  else if !truthyS it.description && 10 < line.length then
    ({ it with description := some lineStr }, none)
  else
    (it, none)

/-- First whitespace token of a line (`line.split()[0] if line.split() else ''`). -/
def firstToken (line : List Char) : List Char :=
  match splitWsGo line [] with
  | t :: _ => t
  | [] => []

/-- The new-item test of the loop (line_item_extractor.py:103-105). -/
def newItemIndicator (line : List Char) : Bool :=
  matchesQtyStart line ||
  (skuLabelSearches line).any Option.isSome ||
  (scanSearch matchPriceAt none (firstToken line)).isSome

/-- One keyword of each header-line keyword set (line_item_extractor.py:63-64). -/
def headerKw1 : List String :=
  ["item", "description", "qty", "quantity", "price", "amount"]

/-- The column-name keywords. -/
def headerKw2 : List String :=
  ["sku", "item", "description", "qty", "quantity", "price", "total"]

/-- The items-section header detection. -/
def isHeaderLine (l : String) : Bool :=
  let lo := pyLower l
  headerKw1.any (fun k => pyContains lo k) && headerKw2.any (fun k => pyContains lo k)

/-- The main parsing loop of `extract_from_ocr` (line_item_extractor.py:72-403)
over the remaining lines: accumulator `cur`, collected items `acc`.  Returns
the collected items together with `current_item` as left at loop exit: on a
totals-section line the open item is appended (line 135) and the loop breaks
*without resetting* `current_item`, so the caller's post-loop append (lines
405-406) sees it again. -/
def segLoop : List String → PartialItem → List PartialItem →
    List PartialItem × PartialItem
  | [], cur, acc => (acc, cur)
  | l :: rest, cur, acc =>
    let line := pyStripL l.data
    if line.isEmpty then
      if hasAnyKey cur then
        let complete := truthyR cur.price || truthyR cur.total ||
          (truthyS cur.description && 30 < (descOr cur).data.length)
        if complete && anyValues cur then segLoop rest {} (acc ++ [cur])
        else segLoop rest cur acc
      else segLoop rest cur acc
    else
      let flushNew :=
        if !truthyS cur.description then false
        else if truthyR cur.price || truthyR cur.total then newItemIndicator line
        else false
      let cur1 : PartialItem := if flushNew then {} else cur
      let acc1 := if flushNew && anyValues cur then acc ++ [cur] else acc
      let lineLower := line.map Char.toLower
      if isTotalsSection lineLower then
        (if hasAnyKey cur1 && anyValues cur1 then acc1 ++ [cur1] else acc1, cur1)
      else
        let it4 := taxBlock line (priceBlock line (qtyBlock line (skuBlock line cur1)))
        match descBlock line it4 with
        | (it5, some f) => segLoop rest it5 (acc1 ++ [f])
        | (it5, none) => segLoop rest it5 acc1

/-- The cleanup pass over one parsed item (line_item_extractor.py:409-467). -/
def cleanupItem (it : PartialItem) : LineItem :=
  let sku := if truthyS it.sku then it.sku.getD "" else ""
  let desc := if truthyS it.description then it.description.getD "" else ""
  let qty := it.quantity.getD 0
  let price := it.price.getD 0
  let total := it.total.getD 0
  let tax := it.tax_rate.getD 0
  let hasKw := discountKeywords.any (fun kw => pyContains (pyLower desc) kw)
  let price1 := if hasKw ∧ total < 0 ∧ price > 0 then -(pyAbs price) else price
  let price2 := if total < 0 ∧ price1 > 0 ∧ hasKw then -(pyAbs price1) else price1
  ⟨sku, desc, qty, price2, tax, total⟩

/-- `LineItemExtractor.extract_from_ocr` (line_item_extractor.py:46-473):
locate the items section, run the accumulator loop, append the final
`current_item` if it is truthy with any truthy value (lines 405-406 — after a
totals-section break this re-appends the item already flushed at line 135),
then clean up, keeping only items with a description or SKU. -/
def extractFromOcr (ocrText : String) : List LineItem :=
  let lines := pySplitNl ocrText
  let body :=
    match lines.findIdx? isHeaderLine with
    | some i => lines.drop (i + 1)
    | none => lines
  let res := segLoop body {} []
  let collected :=
    if hasAnyKey res.2 && anyValues res.2 then res.1 ++ [res.2] else res.1
  (collected.map cleanupItem).filter
    (fun it => !it.description.isEmpty || !it.sku.isEmpty)

/-! ## Shared helper lemmas -/

/-- Membership in `l.zip (l.map f)` pairs every element with its image. -/
theorem mem_zip_map {α β : Type} (f : α → β) :
    ∀ (l : List α) (x : α) (y : β), (x, y) ∈ l.zip (l.map f) → y = f x
  | [], _, _, h => absurd h (by simp)
  | a :: t, x, y, h => by
    simp only [List.map_cons, List.zip_cons_cons, List.mem_cons] at h
    rcases h with h | h
    · rw [Prod.mk.injEq] at h
      rw [h.2, h.1]
    · exact mem_zip_map f t x y h

/-- `_ensure_price_consistency` is idempotent in its price argument. -/
theorem ensurePriceConsistency_idem (p t : Rat) :
    ensurePriceConsistency (ensurePriceConsistency p t) t = ensurePriceConsistency p t := by
  by_cases h : t < 0 ∧ p > 0
  · have h1 : ¬ (t < 0 ∧ -(pyAbs p) > 0) := by
      rintro ⟨_, hpos⟩
      have := pyAbs_nonneg p
      linarith
    simp only [ensurePriceConsistency, if_pos h, if_neg h1]
  · simp only [ensurePriceConsistency, if_neg h]

/-- The improver never changes `quantity` or `total`, always writes
`tax_rate = 0`, and writes a price consistent with the total. -/
theorem improveSingleLineItem_fields (it : LineItem) :
    (improveSingleLineItem it).quantity = it.quantity ∧
    (improveSingleLineItem it).total = it.total ∧
    (improveSingleLineItem it).tax_rate = 0 ∧
    (improveSingleLineItem it).price = ensurePriceConsistency it.price it.total := by
  refine ⟨rfl, rfl, rfl, rfl⟩

/-! ## C3 theorems -/

/-- **C3 counterexample** — the claim is false when the tax/discount
classification is read off the *returned* item: on the single segmented item
with description `"Service ta(123)x"`, the improver extracts SKU `"123"` from
the original description, but description cleaning (parenthetical removal)
turns the description into `"Service tax"`, so the returned item is
tax-classified yet carries a non-empty SKU. -/
theorem c3_output_classification_counterexample :
    extractAndImproveLineItems [⟨"", "Service ta(123)x", 1, 5, 0, 5⟩] =
      [⟨"123", "Service tax", 1, 5, 0, 5⟩] ∧
    isTaxLineItem ⟨"123", "Service tax", 1, 5, 0, 5⟩ = true ∧
    (⟨"123", "Service tax", 1, 5, 0, 5⟩ : LineItem).sku ≠ "" := by
  refine ⟨by decide, by decide, by decide⟩

/-- **C3 (amended)** — every item returned by the Line Item Improver has
`tax_rate = 0.0` (tax and discount items included), and every item whose
*input* is classified as tax (description contains a tax keyword) or discount
(description contains a discount keyword, or total < 0) is returned with
`sku = ''`.  (The classification the code applies is computed on the item as
passed in, before description cleaning.) -/
theorem c3_improver_tax_discount_fields (items : List LineItem) (x y : LineItem)
    (hmem : (x, y) ∈ items.zip (extractAndImproveLineItems items)) :
    y.tax_rate = 0 ∧
    ((isTaxLineItem x || isDiscountLineItem x) = true → y.sku = "") := by
  have hy : y = improveSingleLineItem x := mem_zip_map _ items x y hmem
  constructor
  · rw [hy]
    rfl
  · intro hcls
    rw [hy]
    simp only [improveSingleLineItem, extractSkuForItem, hcls, Bool.not_true,
      Bool.false_eq_true, if_true]

/-- Witness for C3: a `"Sales Tax"` line item is returned with `tax_rate = 0`
and empty SKU. -/
theorem c3_improver_tax_discount_fields_witness :
    (improveSingleLineItem ⟨"", "Sales Tax", 0, 0, 0, 850⟩).tax_rate = 0 ∧
    (improveSingleLineItem ⟨"", "Sales Tax", 0, 0, 0, 850⟩).sku = "" := by
  have h := c3_improver_tax_discount_fields
    [⟨"", "Sales Tax", 0, 0, 0, 850⟩]
    ⟨"", "Sales Tax", 0, 0, 0, 850⟩
    (improveSingleLineItem ⟨"", "Sales Tax", 0, 0, 0, 850⟩)
    (by decide)
  exact ⟨h.1, h.2 (by decide)⟩

/-! ## `OCRExtractor._is_valid_invoice_number` (ocr_extractor.py:578-628) -/

/-- `PatternConfig.invoice_number_exclusions` (patterns.py:43-46). -/
def invoiceNumberExclusions : List String :=
  ["page", "switch", "date", "invoice", "total", "amount", "quantity",
   "description", "sku", "item", "account", "number", "po", "services"]

/-- `\d{1,2}[.slash.-]\d{1,2}[.slash.-]\d{2,4}` (the first date pattern,
patterns.py:22) at the current position: matched text. -/
def matchDatePat1At (_ : Option Char) (cs : List Char) : Option (Nat × List Char) :=
  let d1 := cs.takeWhile Char.isDigit
  if d1.length < 1 || 2 < d1.length then none
  else
    match cs.drop d1.length with
    | s1 :: r1 =>
      if s1 == '/' || s1 == '-' then
        let d2 := r1.takeWhile Char.isDigit
        if d2.length < 1 || 2 < d2.length then none
        else
          match r1.drop d2.length with
          | s2 :: r2 =>
            if s2 == '/' || s2 == '-' then
              let d3 := r2.takeWhile Char.isDigit
              if d3.length < 2 then none
              else
                let m := d1 ++ s1 :: (d2 ++ s2 :: d3.take 4)
                some (m.length, m)
            else none
          | [] => none
      else none
    | [] => none

/-- `re.match(r'^[A-Z0-9\-]+$', s, re.IGNORECASE)`: a nonempty run of
alphanumeric/hyphen characters covering the whole string (`$` may precede one
final newline). -/
def pyFullClassMatchCI (cs : List Char) : Bool :=
  let run := cs.takeWhile classAlnumDash
  !run.isEmpty && (cs.drop run.length == [] || cs.drop run.length == ['\n'])

/-- `OCRExtractor._is_valid_invoice_number` (ocr_extractor.py:578-628). -/
def isValidInvoiceNumber (invoiceNum : String) (exclusions : List String) : Bool :=
  if invoiceNum.data.isEmpty then false
  else if invoiceNum.data.length < 6 ∨ 20 < invoiceNum.data.length then false
  else if exclusions.contains (pyStrip (pyLower invoiceNum)) then false
  else if pyIsAlphaStr invoiceNum = true ∧ pyIsLowerStr invoiceNum = true then false
  else if (matchDatePat1At none invoiceNum.data).isSome then false
  else if pyIsDigitStr invoiceNum = true ∧ invoiceNum.data.length = 4 ∧
      1900 ≤ digitsToNat invoiceNum.data ∧ digitsToNat invoiceNum.data ≤ 2100 then false
  else if pyIsDigitStr invoiceNum then true
  else if pyFullClassMatchCI invoiceNum.data then true
  else false

/-- The validator as literally worded by claim C7 (for refutation): the
final alphanumeric form reads `[A-Z0-9-]+`, i.e. *case-sensitive* upper-case
letters, digits and hyphens. -/
def claimValidInvoiceNumber (invoiceNum : String) : Bool :=
  (6 ≤ invoiceNum.data.length && invoiceNum.data.length ≤ 20) &&
  !(invoiceNumberExclusions.contains (pyStrip (pyLower invoiceNum))) &&
  !(pyIsAlphaStr invoiceNum && pyIsLowerStr invoiceNum) &&
  !(matchDatePat1At none invoiceNum.data).isSome &&
  !(pyIsDigitStr invoiceNum && invoiceNum.data.length == 4 &&
    (1900 ≤ digitsToNat invoiceNum.data && digitsToNat invoiceNum.data ≤ 2100)) &&
  (pyIsDigitStr invoiceNum ||
    (!invoiceNum.data.isEmpty && invoiceNum.data.all classUpperDash))

/-- The validator with the claim's conditions but the *case-insensitive*
alphanumeric form the code actually checks. -/
def amendedValidInvoiceNumber (invoiceNum : String) : Bool :=
  (6 ≤ invoiceNum.data.length && invoiceNum.data.length ≤ 20) &&
  !(invoiceNumberExclusions.contains (pyStrip (pyLower invoiceNum))) &&
  !(pyIsAlphaStr invoiceNum && pyIsLowerStr invoiceNum) &&
  !(matchDatePat1At none invoiceNum.data).isSome &&
  !(pyIsDigitStr invoiceNum && invoiceNum.data.length == 4 &&
    (1900 ≤ digitsToNat invoiceNum.data && digitsToNat invoiceNum.data ≤ 2100)) &&
  (pyIsDigitStr invoiceNum ||
    (!invoiceNum.data.isEmpty && invoiceNum.data.all classAlnumDash))

/-! ## Vendor-name extraction (base.py:111-205, ocr_extractor.py:49-212) -/

/-- Join strings with single spaces (`' '.join(words)`). -/
def joinSpaceL (ws : List String) : String :=
  String.mk (((ws.map String.data).intersperse [' ']).flatten)

/-- Join strings with newlines (`'\n'.join(lines)`). -/
def joinNlL (ws : List String) : String :=
  String.mk (((ws.map String.data).intersperse ['\n']).flatten)

/-- The domain-to-company transformations of `_clean_vendor_name`
(base.py:147-153), in insertion order. -/
def domainTransformations : List (String × String) :=
  [("fb.com", "Facebook, Inc."), ("facebook.com", "Facebook, Inc."),
   ("google.com", "Google LLC"), ("amazon.com", "Amazon.com, Inc."),
   ("apple.com", "Apple Inc.")]

/-- The per-word suffix standardisation of `_clean_vendor_name`
(base.py:183-201): a known corporate suffix is normalised, any other word is
capitalised. -/
def suffixStandardize (w : String) : String :=
  let lw := pyLower w
  if lw = "ltd." ∨ lw = "ltd" then "Ltd."
  else if lw = "inc." ∨ lw = "inc" then "Inc."
  else if lw = "llc" then "LLC"
  else if lw = "corp." ∨ lw = "corp" then "Corp."
  else if lw = "corporation" then "Corporation"
  else if lw = "company" then "Company"
  else if lw = "co." ∨ lw = "co" then "Co."
  else pyCapitalize w

/-- `BaseExtractor._clean_vendor_name` (base.py:111-205): collapse
whitespace, map known remittance domains to canonical names (short-circuit),
otherwise capitalise the first word and suffix-standardise the rest.  (The
`has_suffix` block of the source computes a value that is never used.) -/
def cleanVendorName (vendorName : String) : String :=
  if vendorName.data.isEmpty then ""
  else
    let cleaned := pyCollapseWs (pyStrip vendorName)
    let lowerC := pyLower cleaned
    match domainTransformations.find? (fun p => pyContains lowerC p.1) with
    | some p => p.2
    | none =>
      match pySplitWs cleaned with
      | [] => cleaned
      | w :: ws => joinSpaceL (pyCapitalize w :: ws.map suffixStandardize)

/-- Strip a trailing `[.,;]+` run (`re.sub(r'[.,;]+$', '', v)`). -/
def dropTrailingPunct (cs : List Char) : List Char :=
  (cs.reverse.dropWhile (fun c => c == '.' || c == ',' || c == ';')).reverse

/-- `please\s+make\s+payments\s+to\s*:?\s*(.+?)(?:\n|$)` at the current
position (ocr_extractor.py:99). -/
def paymentPat1At (_ : Option Char) (cs : List Char) : Option (List Char) :=
  match eatLitCI "please".data cs with
  | none => none
  | some r1 =>
    match eatWs1 r1 with
    | none => none
    | some r2 =>
      match eatLitCI "make".data r2 with
      | none => none
      | some r3 =>
        match eatWs1 r3 with
        | none => none
        | some r4 =>
          match eatLitCI "payments".data r4 with
          | none => none
          | some r5 =>
            match eatWs1 r5 with
            | none => none
            | some r6 =>
              match eatLitCI "to".data r6 with
              | none => none
              | some r7 => captureAfterColonWs r7

/-- `make\s+payments\s+to\s*:?\s*(.+?)(?:\n|$)` (ocr_extractor.py:100). -/
def paymentPat2At (_ : Option Char) (cs : List Char) : Option (List Char) :=
  match eatLitCI "make".data cs with
  | none => none
  | some r1 =>
    match eatWs1 r1 with
    | none => none
    | some r2 =>
      match eatLitCI "payments".data r2 with
      | none => none
      | some r3 =>
        match eatWs1 r3 with
        | none => none
        | some r4 =>
          match eatLitCI "to".data r4 with
          | none => none
          | some r5 => captureAfterColonWs r5

/-- `payments\s+should\s+be\s+made\s+to\s*:?\s*(.+?)(?:\n|$)`
(ocr_extractor.py:101). -/
def paymentPat3At (_ : Option Char) (cs : List Char) : Option (List Char) :=
  match eatLitCI "payments".data cs with
  | none => none
  | some r1 =>
    match eatWs1 r1 with
    | none => none
    | some r2 =>
      match eatLitCI "should".data r2 with
      | none => none
      | some r3 =>
        match eatWs1 r3 with
        | none => none
        | some r4 =>
          match eatLitCI "be".data r4 with
          | none => none
          | some r5 =>
            match eatWs1 r5 with
            | none => none
            | some r6 =>
              match eatLitCI "made".data r6 with
              | none => none
              | some r7 =>
                match eatWs1 r7 with
                | none => none
                | some r8 =>
                  match eatLitCI "to".data r8 with
                  | none => none
                  | some r9 => captureAfterColonWs r9

/-- The per-pattern body of `_extract_vendor_from_payment_pattern`
(ocr_extractor.py:104-119): capture, strip trailing punctuation, reject short
captures, clean; a falsy result falls through to the next pattern. -/
def paymentCapture (pat : Option Char → List Char → Option (List Char))
    (text : List Char) : Option String :=
  match scanSearch pat none text with
  | none => none
  | some grp =>
    let v1 := pyStrip (String.mk grp)
    let v2 := pyStrip (String.mk (dropTrailingPunct v1.data))
    if v2.data.isEmpty ∨ v2.data.length ≤ 2 then none
    else
      let cleaned := cleanVendorName v2
      if cleaned.data.isEmpty then none else some cleaned

/-- `OCRExtractor._extract_vendor_from_payment_pattern`
(ocr_extractor.py:88-121). -/
def extractVendorFromPaymentPattern (ocrText : String) : Option String :=
  match paymentCapture paymentPat1At ocrText.data with
  | some v => some v
  | none =>
    match paymentCapture paymentPat2At ocrText.data with
    | some v => some v
    | none => paymentCapture paymentPat3At ocrText.data

/-- The vendor first-lines false positives (ocr_extractor.py:134-138). -/
def vendorFalsePositives : List String :=
  ["page", "page 1", "page 2", "page 1 of", "page 2 of",
   "invoice", "date", "total", "amount", "due",
   "bill to", "ship to", "sold to", "please make payments"]

/-- `re.match(r'^page\s+\d+', line_lower)`. -/
def matchPageNum (cs : List Char) : Bool :=
  match eatLitCS "page".data cs with
  | none => false
  | some r =>
    match eatWs1 r with
    | none => false
    | some r2 =>
      match r2 with
      | c :: _ => c.isDigit
      | [] => false

/-- The anchored digits-separator-digits date test of line 176
(three unbounded digit groups separated by slash or dash). -/
def matchNumSepNumSepNum (cs : List Char) : Bool :=
  let d1 := cs.takeWhile Char.isDigit
  !d1.isEmpty &&
    (match cs.drop d1.length with
     | s1 :: r1 =>
       (s1 == '/' || s1 == '-') &&
         (let d2 := r1.takeWhile Char.isDigit
          !d2.isEmpty &&
            (match r1.drop d2.length with
             | s2 :: r2 =>
               (s2 == '/' || s2 == '-') && !(r2.takeWhile Char.isDigit).isEmpty
             | [] => false))
     | [] => false)

/-- `re.match(r'^#?\s*\d+', line)`. -/
def matchHashNum (cs : List Char) : Bool :=
  let cs1 :=
    match cs with
    | '#' :: t => t
    | _ => cs
  match cs1.dropWhile pyIsSpace with
  | c :: _ => c.isDigit
  | [] => false

/-- The short-date start test of line 185 (1–2 digits then slash or dash). -/
def matchShortDateStart (cs : List Char) : Bool :=
  let run := cs.takeWhile Char.isDigit
  1 ≤ run.length && run.length ≤ 2 &&
    (match cs.drop run.length with
     | sep :: _ => sep == '/' || sep == '-'
     | [] => false)

/-- `OCRExtractor._is_valid_vendor_line` (ocr_extractor.py:151-189). -/
def isValidVendorLine (lineRaw : String) (lineIndex : Nat) : Bool :=
  let line := pyStrip lineRaw
  if line.data.isEmpty then false
  else
    let lower := pyLower line
    if vendorFalsePositives.any (fun fp => pyContains lower fp) then false
    else if matchPageNum lower.data then false
    else if matchNumSepNumSepNum line.data then false
    else if matchHashNum line.data then false
    else if line.data.length ≤ 3 ∨ 100 ≤ line.data.length then false
    else if (match line.data with
             | c :: _ => c.isDigit
             | [] => false) || matchShortDateStart line.data then false
    else decide (lineIndex < 8)

/-- The loop of `_extract_vendor_from_first_lines` (ocr_extractor.py:141-147). -/
def firstLinesGo : Nat → List String → Option String
  | _, [] => none
  | i, l :: rest =>
    if isValidVendorLine l i then
      let cleaned := cleanVendorName l
      if cleaned.data.isEmpty then firstLinesGo (i + 1) rest else some cleaned
    else firstLinesGo (i + 1) rest

/-- `OCRExtractor._extract_vendor_from_first_lines` (ocr_extractor.py:123-149). -/
def extractVendorFromFirstLines (ocrText : String) : Option String :=
  firstLinesGo 0 ((pySplitNl ocrText).take 15)

/-- `(?:from|vendor|supplier)\s*:?\s*(.+?)(?:\n|$)` (IGNORECASE|MULTILINE,
patterns.py:67) at the current position. -/
def vendorPat1At (_ : Option Char) (cs : List Char) : Option (List Char) :=
  match [("from" : String), "vendor", "supplier"].filterMap
      (fun lit => eatLitCI lit.data cs) |>.head? with
  | some r => captureAfterColonWs r
  | none => none

/-- The suffix alternation `(?:Inc|LLC|Corp|Ltd|Company|Co)\.?` of the second
vendor pattern: consumed length at the head of `s`, alternatives in source
order. -/
def vendorPat2Suffix (s : List Char) : Option Nat :=
  ([("Inc" : String), "LLC", "Corp", "Ltd", "Company", "Co"].filterMap
    (fun suf =>
      if startsWithL suf.data s then
        some (suf.data.length +
          (match s.drop suf.data.length with
           | '.' :: _ => 1
           | _ => 0))
      else none)).head?

/-- Try decreasing lengths of the greedy `[A-Za-z\s&]+` run before the
corporate suffix. -/
def vendorPat2Go (full rest : List Char) : Nat → Option (List Char)
  | 0 => none
  | k + 1 =>
    match vendorPat2Suffix (rest.drop (k + 1)) with
    | some slen => some (full.take (1 + (k + 1) + slen))
    | none => vendorPat2Go full rest k

/-- `^([A-Z][A-Za-z\s&]+(?:Inc|LLC|Corp|Ltd|Company|Co)\.?)` (MULTILINE,
patterns.py:68) at a line-start position. -/
def vendorPat2At (cs : List Char) : Option (List Char) :=
  match cs with
  | c :: rest =>
    if c.isUpper then
      let run := rest.takeWhile (fun ch => ch.isAlpha || pyIsSpace ch || ch == '&')
      vendorPat2Go cs rest run.length
    else none
  | [] => none

/-- MULTILINE `^`-anchored search: try only line-start positions. -/
def scanLineStarts {α : Type} (matchAt : List Char → Option α) :
    Bool → List Char → Option α
  | atStart, cs =>
    match (if atStart then matchAt cs else none) with
    | some r => some r
    | none =>
      match cs with
      | [] => none
      | c :: t => scanLineStarts matchAt (c == '\n') t

/-- The per-pattern body of `_extract_vendor_from_patterns`
(ocr_extractor.py:201-210). -/
def vendorPatternCapture (grp : List Char) : Option String :=
  let result := pyStrip (String.mk grp)
  if !result.data.isEmpty && 3 < result.data.length then
    let cleaned := cleanVendorName result
    if cleaned.data.isEmpty then none else some cleaned
  else none

/-- `OCRExtractor._extract_vendor_from_patterns` (ocr_extractor.py:191-212). -/
def extractVendorFromPatterns (ocrText : String) : Option String :=
  match (match scanSearch vendorPat1At none ocrText.data with
         | some g => vendorPatternCapture g
         | none => none) with
  | some v => some v
  | none =>
    match scanLineStarts vendorPat2At true ocrText.data with
    | some g => vendorPatternCapture g
    | none => none

/-- `OCRExtractor.extract_vendor_name` (ocr_extractor.py:49-86): payment
pattern, then first lines, then generic vendor patterns. -/
def extractVendorName (ocrText : String) : Option String :=
  match extractVendorFromPaymentPattern ocrText with
  | some v => some v
  | none =>
    match extractVendorFromFirstLines ocrText with
    | some v => some v
    | none => extractVendorFromPatterns ocrText

/-! ## Hybrid reconciliation (hybrid_extractor.py) and JSON output -/

/-- One extractor's field results (`structured_data` / `ocr_data` dicts;
absent keys and `None` both collapse to `none`). -/
structure FieldData where
  vendor_name : Option String := none
  vendor_address : Option String := none
  bill_to_name : Option String := none
  invoice_number : Option String := none
  date : Option String := none
deriving Repr, DecidableEq

/-- `HybridExtractor._has_payment_pattern` (hybrid_extractor.py:176-187). -/
def hasPaymentPattern (ocrText : String) : Bool :=
  let lower := pyLower ocrText
  pyContains lower "please make payments" || pyContains lower "make payments to"

/-- Python `a or b` on optional strings. -/
def orFieldOpt (a b : Option String) : Option String :=
  if truthyS a then a else b

/-- Python `a or b or None` on optional strings. -/
def orNoneField (a b : Option String) : Option String :=
  if truthyS a then a else if truthyS b then b else none

/-- `HybridExtractor._select_vendor_name` (hybrid_extractor.py:144-174):
the OCR extraction result overrides both sources when the payment-pattern
gate fires; otherwise structured first, OCR second. -/
def selectVendorName (structuredData ocrData : FieldData) (ocrText : Option String) :
    Option String :=
  let fromPayment :=
    match ocrText with
    | some t =>
      if !t.data.isEmpty then
        match extractVendorName t with
        | some pv =>
          if !pv.data.isEmpty && hasPaymentPattern t then some pv else none
        | none => none
      else none
    | none => none
  match fromPayment with
  | some v => some v
  | none => orFieldOpt structuredData.vendor_name ocrData.vendor_name

/-- The combined record (`_combine_extracted_fields` output dict). -/
structure CombinedData where
  vendor_name : Option String
  vendor_address : Option String
  bill_to_name : Option String
  invoice_number : Option String
  date : Option String
  line_items : List LineItem
deriving Repr, DecidableEq

/-- `HybridExtractor._combine_extracted_fields` (hybrid_extractor.py:189-217). -/
def combineExtractedFields (structuredData ocrData : FieldData)
    (lineItems : List LineItem) (ocrText : Option String) : CombinedData :=
  { vendor_name := selectVendorName structuredData ocrData ocrText,
    vendor_address := orNoneField structuredData.vendor_address ocrData.vendor_address,
    bill_to_name := orNoneField structuredData.bill_to_name ocrData.bill_to_name,
    invoice_number := orNoneField structuredData.invoice_number ocrData.invoice_number,
    date := orNoneField structuredData.date ocrData.date,
    line_items := lineItems }

/-- `JSONGenerator._safe_str` (json_generator.py:25-30). -/
def safeStr : Option String → String
  | none => ""
  | some s => pyStrip s

/-- One serialized line item (json_generator.py:73-80); `_safe_float` on a
float is the identity, and on `None` the default (the pipeline's items are
always floats). -/
def serializeLineItem (it : LineItem) : JVal :=
  .dict [("sku", .str (pyStrip it.sku)), ("description", .str (pyStrip it.description)),
         ("quantity", .num it.quantity), ("price", .num it.price),
         ("tax_rate", .num it.tax_rate), ("total", .num it.total)]

/-- `JSONGenerator.generate_json` (json_generator.py:43-90) on the combined
record, as a key/value list. -/
def generateJson (invoiceData : CombinedData) (filename : Option String) :
    List (String × JVal) :=
  let base : List (String × JVal) :=
    [("vendor_name", .str (safeStr invoiceData.vendor_name)),
     ("vendor_address", .str (safeStr invoiceData.vendor_address)),
     ("bill_to_name", .str (safeStr invoiceData.bill_to_name)),
     ("invoice_number", .str (safeStr invoiceData.invoice_number)),
     ("date", .str (safeStr invoiceData.date)),
     ("line_items", .jlist (invoiceData.line_items.map serializeLineItem))]
  match filename with
  | some f =>
    if !f.data.isEmpty then
      base ++ [("_metadata",
        .dict [("source_file", .str f), ("extraction_timestamp", .null)])]
    else base
  | none => base

/-! ## Date parsing and validation (base.py:45-109, ocr_extractor.py:630-728) -/

/-- Gregorian leap year. -/
def isLeap (y : Nat) : Bool :=
  y % 4 == 0 && (y % 100 != 0 || y % 400 == 0)

/-- Days in a month. -/
def daysInMonth (y m : Nat) : Nat :=
  if m = 2 then (if isLeap y then 29 else 28)
  else if m = 4 ∨ m = 6 ∨ m = 9 ∨ m = 11 then 30
  else 31

/-- The `datetime` constructor's validity condition (MINYEAR 1, MAXYEAR
9999, calendar-valid month and day). -/
def validYmd (y m d : Nat) : Bool :=
  1 ≤ y && y ≤ 9999 && 1 ≤ m && m ≤ 12 && 1 ≤ d && d ≤ daysInMonth y m

/-- Day number of a civil date (days since 1970-01-01); dates are modelled at
day granularity, so differences of day numbers are exactly
`(a - b).days` on midnight datetimes. -/
def rataDie (y m d : Nat) : Int :=
  let yi : Int := y
  let yAdj : Int := if m ≤ 2 then yi - 1 else yi
  let era : Int := yAdj / 400
  let yoe : Int := yAdj - era * 400
  let mp : Int := ((m : Int) + 9) % 12
  let doy : Int := (153 * mp + 2) / 5 + (d : Int) - 1
  let doe : Int := yoe * 365 + yoe / 4 - yoe / 100 + doy
  era * 146097 + doe - 719468

/-- strptime `%m`: the regex alternation `1[0-2]|0[1-9]|[1-9]` (two-digit
first, single-digit fallback; a following separator is never a digit, so no
cross-component backtracking arises). -/
def eatMonthNum : List Char → Option (Nat × List Char)
  | '1' :: c :: rest =>
    if '0' ≤ c ∧ c ≤ '2' then some (10 + (c.toNat - 48), rest)
    else some (1, c :: rest)
  | '0' :: c :: rest =>
    if '1' ≤ c ∧ c ≤ '9' then some (c.toNat - 48, rest) else none
  | c :: rest =>
    if '1' ≤ c ∧ c ≤ '9' then some (c.toNat - 48, rest) else none
  | [] => none

/-- strptime `%d`: the regex alternation `3[01]|[12]\d|0[1-9]|[1-9]`. -/
def eatDayNum : List Char → Option (Nat × List Char)
  | '3' :: c :: rest =>
    if c == '0' || c == '1' then some (30 + (c.toNat - 48), rest)
    else some (3, c :: rest)
  | c1 :: c2 :: rest =>
    if (c1 == '1' || c1 == '2') ∧ c2.isDigit then
      some ((c1.toNat - 48) * 10 + (c2.toNat - 48), rest)
    else if c1 == '0' then
      (if '1' ≤ c2 ∧ c2 ≤ '9' then some (c2.toNat - 48, rest) else none)
    else if '1' ≤ c1 ∧ c1 ≤ '9' then some (c1.toNat - 48, c2 :: rest)
    else none
  | [c] => if '1' ≤ c ∧ c ≤ '9' then some (c.toNat - 48, []) else none
  | [] => none

/-- strptime `%Y`: exactly four digits. -/
def eatYear4 : List Char → Option (Nat × List Char)
  | a :: b :: c :: d :: rest =>
    if a.isDigit && b.isDigit && c.isDigit && d.isDigit then
      some (((a.toNat - 48) * 10 + (b.toNat - 48)) * 100 +
        ((c.toNat - 48) * 10 + (d.toNat - 48)), rest)
    else none
  | _ => none

/-- Full month names as strptime matches them (case-insensitively; none is a
prefix of another). -/
def monthFullNames : List String :=
  ["january", "february", "march", "april", "may", "june", "july", "august",
   "september", "october", "november", "december"]

/-- Abbreviated month names (`%b`). -/
def monthAbbrevNames : List String :=
  ["jan", "feb", "mar", "apr", "may", "jun", "jul", "aug", "sep", "oct",
   "nov", "dec"]

/-- Match one month name (1-based index) case-insensitively at the head. -/
def eatMonthNameGo (cs : List Char) : Nat → List String → Option (Nat × List Char)
  | _, [] => none
  | i, n :: ns =>
    if startsWithCIL n.data cs then some (i, cs.drop n.data.length)
    else eatMonthNameGo cs (i + 1) ns

/-- strptime `%B`/`%b` month-name component. -/
def eatMonthName (names : List String) (cs : List Char) : Option (Nat × List Char) :=
  eatMonthNameGo cs 1 names

/-- `datetime.strptime(s, '%m<sep>%d<sep>%Y')` followed by the constructor's
validity check; requires full consumption of the string. -/
def fmtMDY (sep : Char) (cs : List Char) : Option (Nat × Nat × Nat) :=
  match eatMonthNum cs with
  | some (m, s1 :: r1) =>
    if s1 == sep then
      match eatDayNum r1 with
      | some (d, s2 :: r2) =>
        if s2 == sep then
          match eatYear4 r2 with
          | some (y, []) => if validYmd y m d then some (y, m, d) else none
          | _ => none
        else none
      | _ => none
    else none
  | _ => none

/-- `datetime.strptime(s, '%d<sep>%m<sep>%Y')`. -/
def fmtDMY (sep : Char) (cs : List Char) : Option (Nat × Nat × Nat) :=
  match eatDayNum cs with
  | some (d, s1 :: r1) =>
    if s1 == sep then
      match eatMonthNum r1 with
      | some (m, s2 :: r2) =>
        if s2 == sep then
          match eatYear4 r2 with
          | some (y, []) => if validYmd y m d then some (y, m, d) else none
          | _ => none
        else none
      | _ => none
    else none
  | _ => none

/-- `datetime.strptime(s, '%Y<sep>%m<sep>%d')`. -/
def fmtYMD (sep : Char) (cs : List Char) : Option (Nat × Nat × Nat) :=
  match eatYear4 cs with
  | some (y, s1 :: r1) =>
    if s1 == sep then
      match eatMonthNum r1 with
      | some (m, s2 :: r2) =>
        if s2 == sep then
          match eatDayNum r2 with
          | some (d, []) => if validYmd y m d then some (y, m, d) else none
          | _ => none
        else none
      | _ => none
    else none
  | _ => none

/-- `datetime.strptime(s, '%B %d, %Y')` (or `%b`): month name, whitespace
run, day, a literal comma, whitespace run, four-digit year. -/
def fmtMonthNameDY (names : List String) (cs : List Char) : Option (Nat × Nat × Nat) :=
  match eatMonthName names cs with
  | none => none
  | some (m, r1) =>
    match eatWs1 r1 with
    | none => none
    | some r2 =>
      match eatDayNum r2 with
      | none => none
      | some (d, r3) =>
        match r3 with
        | ',' :: r4 =>
          match eatWs1 r4 with
          | none => none
          | some r5 =>
            match eatYear4 r5 with
            | some (y, []) => if validYmd y m d then some (y, m, d) else none
            | _ => none
        | _ => none

/-- `datetime.strptime(s, '%d %B %Y')` (or `%b`). -/
def fmtDMonthNameY (names : List String) (cs : List Char) : Option (Nat × Nat × Nat) :=
  match eatDayNum cs with
  | none => none
  | some (d, r1) =>
    match eatWs1 r1 with
    | none => none
    | some r2 =>
      match eatMonthName names r2 with
      | none => none
      | some (m, r3) =>
        match eatWs1 r3 with
        | none => none
        | some r4 =>
          match eatYear4 r4 with
          | some (y, []) => if validYmd y m d then some (y, m, d) else none
          | _ => none

/-- The ten formats of `_parse_date` (base.py:73-78), in order. -/
def dateFmtParsers : List (List Char → Option (Nat × Nat × Nat)) :=
  [fmtMDY '/', fmtDMY '/', fmtYMD '/', fmtMDY '-', fmtDMY '-', fmtYMD '-',
   fmtMonthNameDY monthFullNames, fmtMonthNameDY monthAbbrevNames,
   fmtDMonthNameY monthFullNames, fmtDMonthNameY monthAbbrevNames]

/-- First format that parses (and yields a constructible date). -/
def firstParse : List (List Char → Option (Nat × Nat × Nat)) → List Char →
    Option (Nat × Nat × Nat)
  | [], _ => none
  | p :: ps, cs =>
    match p cs with
    | some r => some r
    | none => firstParse ps cs

/-- Is there a run of four consecutive digits (`re.search(r'(\d{4})', s)`)? -/
def hasRun4Go : Nat → List Char → Bool
  | k, [] => decide (4 ≤ k)
  | k, c :: rest =>
    if c.isDigit then (decide (4 ≤ k + 1)) || hasRun4Go (k + 1) rest
    else hasRun4Go 0 rest

def hasRun4 (cs : List Char) : Bool :=
  hasRun4Go 0 cs

/-- `re.findall(r'\d{1,2}', s)` as numbers: each maximal digit run split
greedily left-to-right into two-digit chunks (last chunk possibly one digit).
The state holds a pending first digit. -/
def digitChunksGo : List Char → Option Nat → List Nat
  | [], some v => [v]
  | [], none => []
  | c :: rest, pending =>
    if c.isDigit then
      match pending with
      | none => digitChunksGo rest (some (c.toNat - 48))
      | some v => (v * 10 + (c.toNat - 48)) :: digitChunksGo rest none
    else
      match pending with
      | some v => v :: digitChunksGo rest none
      | none => digitChunksGo rest none

def digitChunks12 (cs : List Char) : List Nat :=
  digitChunksGo cs none

/-- The digit-group fallback of `_parse_date` (base.py:88-107): requires a
four-digit run somewhere, takes the first three 1–2 digit chunks, and builds
`datetime(p2, p0, p1)`, falling back to `datetime(p2, p1, p0)` on a
`ValueError`.  (The source's `len(parts[0]) == 4` branch is unreachable:
chunks are at most two characters.) -/
def parseDateFallbackHeur (cs : List Char) : Option (Nat × Nat × Nat) :=
  if hasRun4 cs then
    match digitChunks12 cs with
    | p0 :: p1 :: p2 :: _ =>
      if validYmd p2 p0 p1 then some (p2, p0, p1)
      else if validYmd p2 p1 p0 then some (p2, p1, p0)
      else none
    | _ => none
  else none

/-- Decimal digits of `n` (for `strftime` formatting). -/
def pad2 (n : Nat) : List Char :=
  if n < 10 then ['0', Char.ofNat (48 + n)] else Nat.toDigits 10 n

/-- `dt.strftime('%m/%d/%Y')` (glibc: `%m`/`%d` zero-padded to two digits,
`%Y` unpadded). -/
def formatDate (y m d : Nat) : String :=
  String.mk (pad2 m ++ '/' :: pad2 d ++ '/' :: Nat.toDigits 10 y)

/-- `BaseExtractor._parse_date` (base.py:45-109): strip, try the ten formats,
then the digit-group heuristic; on success reformat as MM/DD/YYYY. -/
def parseDate (dateStr : String) : Option String :=
  let cs := pyStripL dateStr.data
  match firstParse dateFmtParsers cs with
  | some (y, m, d) => some (formatDate y m d)
  | none =>
    match parseDateFallbackHeur cs with
    | some (y, m, d) => some (formatDate y m d)
    | none => none

/-- `datetime.strptime(s, '%m/%d/%Y')` with the constructor's validity
check (the parse inside `_is_valid_date`). -/
def parseMmDdYyyy (cs : List Char) : Option (Nat × Nat × Nat) :=
  fmtMDY '/' cs

/-- `OCRExtractor._is_valid_date` (ocr_extractor.py:702-728).  Line 718 binds
`dt_now` to the `datetime` *class* (`from datetime import datetime as
dt_now`), so the call `dt_now()` at line 719 invokes the class with no
arguments and raises `TypeError`.  A failed `strptime` raises `ValueError`.
Both exceptions land in the handler at line 727, so the validator returns
`False` on every input — the intended 365/3650-day window never executes. -/
def isValidDateStr (dateStr : String) : Bool :=
  match parseMmDdYyyy dateStr.data with
  | none => false
  | some _ => false

/-- The acceptance window the claim (and the spec) describe, written from the
claim's words: at most 365 days in the future and at most 3650 days in the
past of `today` (day numbers). -/
def claimDateAccept (y m d : Nat) (today : Int) : Bool :=
  decide (rataDie y m d - today ≤ 365) && decide (today - rataDie y m d ≤ 3650)

/-- `\d{4}[.slash.-]\d{1,2}[.slash.-]\d{1,2}` (the second date pattern,
patterns.py:23) at the current position: consumed length and matched text. -/
def matchDatePat2At (_ : Option Char) (cs : List Char) : Option (Nat × List Char) :=
  let d1 := cs.takeWhile Char.isDigit
  if d1.length < 4 then none
  else
    match cs.drop 4 with
    | s1 :: r1 =>
      if s1 == '/' || s1 == '-' then
        let d2 := r1.takeWhile Char.isDigit
        if d2.length < 1 ∨ 2 < d2.length then none
        else
          match r1.drop d2.length with
          | s2 :: r2 =>
            if s2 == '/' || s2 == '-' then
              let d3 := r2.takeWhile Char.isDigit
              if d3.isEmpty then none
              else
                let len := 4 + 1 + d2.length + 1 + min d3.length 2
                some (len, cs.take len)
            else none
          | [] => none
      else none
    | [] => none

/-- `(?:Jan|...|Dec)[a-z]*\s+\d{1,2},?\s+\d{4}` (the third date pattern,
patterns.py:24, case-sensitive) at the current position. -/
def matchDatePat3At (_ : Option Char) (cs : List Char) : Option (Nat × List Char) :=
  match ([("Jan" : String), "Feb", "Mar", "Apr", "May", "Jun", "Jul", "Aug",
          "Sep", "Oct", "Nov", "Dec"].filterMap
      (fun mn => if startsWithL mn.data cs then some mn else none)).head? with
  | none => none
  | some _ =>
    let r1 := cs.drop 3
    let low := r1.takeWhile Char.isLower
    let r2 := r1.drop low.length
    match eatWs1 r2 with
    | none => none
    | some r3 =>
      let ws1 := r2.length - r3.length
      let d1 := r3.takeWhile Char.isDigit
      if d1.length < 1 ∨ 2 < d1.length then none
      else
        let r4 := r3.drop d1.length
        let hasComma :=
          match r4 with
          | ',' :: _ => true
          | _ => false
        let r5 := if hasComma then r4.drop 1 else r4
        match eatWs1 r5 with
        | none => none
        | some r6 =>
          let ws2 := r5.length - r6.length
          if 4 ≤ (r6.takeWhile Char.isDigit).length then
            let len := 3 + low.length + ws1 + d1.length +
              (if hasComma then 1 else 0) + ws2 + 4
            some (len, cs.take len)
          else none

/-- The `\s*([^\n]+)` tail of the fourth date-section pattern (no optional
colon). -/
def captureAfterWsOnly (cs : List Char) : Option (List Char) :=
  let ws1 := cs.takeWhile pyIsSpace
  let r1 := cs.drop ws1.length
  let tl := r1.takeWhile (fun c => c ≠ '\n')
  if !tl.isEmpty then some tl else giveBackOneWs ws1

/-- `invoice\s+date\s*:?\s*([^\n]+)` (IGNORECASE, patterns.py:87). -/
def dsInvoiceDateColonAt (_ : Option Char) (cs : List Char) : Option (List Char) :=
  match eatLitCI "invoice".data cs with
  | none => none
  | some r1 =>
    match eatWs1 r1 with
    | none => none
    | some r2 =>
      match eatLitCI "date".data r2 with
      | none => none
      | some r3 => captureAfterColonWs r3

/-- `date\s*:?\s*([^\n]+)` (patterns.py:88). -/
def dsDateColonAt (_ : Option Char) (cs : List Char) : Option (List Char) :=
  match eatLitCI "date".data cs with
  | none => none
  | some r1 => captureAfterColonWs r1

/-- `bill\s+date\s*:?\s*([^\n]+)` (patterns.py:89). -/
def dsBillDateColonAt (_ : Option Char) (cs : List Char) : Option (List Char) :=
  match eatLitCI "bill".data cs with
  | none => none
  | some r1 =>
    match eatWs1 r1 with
    | none => none
    | some r2 =>
      match eatLitCI "date".data r2 with
      | none => none
      | some r3 => captureAfterColonWs r3

/-- `invoice\s+date\s*([^\n]+)` (patterns.py:90). -/
def dsInvoiceDateWsAt (_ : Option Char) (cs : List Char) : Option (List Char) :=
  match eatLitCI "invoice".data cs with
  | none => none
  | some r1 =>
    match eatWs1 r1 with
    | none => none
    | some r2 =>
      match eatLitCI "date".data r2 with
      | none => none
      | some r3 => captureAfterWsOnly r3

/-- One date pattern searched inside a captured section string
(ocr_extractor.py:648-654). -/
def tryOneDateMatcher (m : Option Char → List Char → Option (Nat × List Char))
    (dateStr : String) : Option String :=
  match scanSearch m none dateStr.data with
  | none => none
  | some (_, txt) =>
    match parseDate (String.mk txt) with
    | none => none
    | some p => if !p.data.isEmpty && isValidDateStr p then some p else none

/-- The body run on a captured date-section string: the three date patterns,
then the whole string (ocr_extractor.py:645-659). -/
def tryDateStr (dateStr : String) : Option String :=
  match tryOneDateMatcher matchDatePat1At dateStr with
  | some p => some p
  | none =>
  match tryOneDateMatcher matchDatePat2At dateStr with
  | some p => some p
  | none =>
  match tryOneDateMatcher matchDatePat3At dateStr with
  | some p => some p
  | none =>
    match parseDate dateStr with
    | none => none
    | some p => if !p.data.isEmpty && isValidDateStr p then some p else none

/-- One date-section pattern applied to the header (strategy 1 body). -/
def trySection (pat : Option Char → List Char → Option (List Char))
    (header : List Char) : Option String :=
  match scanSearch pat none header with
  | none => none
  | some grp => tryDateStr (pyStrip (String.mk grp))

/-- Strategy 1 of `extract_date`: the four labeled date-section patterns in
order; a section whose capture does not yield a valid date falls through to
the next pattern. -/
def dateSectionStrategy (header : List Char) : Option String :=
  match trySection dsInvoiceDateColonAt header with
  | some p => some p
  | none =>
  match trySection dsDateColonAt header with
  | some p => some p
  | none =>
  match trySection dsBillDateColonAt header with
  | some p => some p
  | none => trySection dsInvoiceDateWsAt header

/-- Strategy 2 candidates for one date pattern: every match in the header
that parses and validates, scored by context (+10 near invoice/date/bill,
+5 when 'due' is absent), with its start position. -/
def dateCandidatesOne (m : Option Char → List Char → Option (Nat × List Char))
    (header : List Char) : List (Nat × Nat × String) :=
  (scanAll m (header.length + 1) 0 none header).filterMap (fun p =>
    match parseDate (String.mk p.2) with
    | none => none
    | some parsed =>
      if !parsed.data.isEmpty && isValidDateStr parsed then
        let ms := p.1
        let mend := p.1 + p.2.length
        let cstart := ms - 30
        let cend := min header.length (mend + 30)
        let context := ((header.drop cstart).take (cend - cstart)).map Char.toLower
        let score :=
          (if containsL context "invoice".data || containsL context "date".data ||
              containsL context "bill".data then 10 else 0) +
          (if !containsL context "due".data then 5 else 0)
        some (score, ms, parsed)
      else none)

def dateCandidates (header : List Char) : List (Nat × Nat × String) :=
  dateCandidatesOne matchDatePat1At header ++
  dateCandidatesOne matchDatePat2At header ++
  dateCandidatesOne matchDatePat3At header

/-- The first element after the stable sort by `(-score, position)`: keep the
current best unless a later candidate strictly beats it. -/
def bestCandidateGo : (Nat × Nat × String) → List (Nat × Nat × String) →
    (Nat × Nat × String)
  | best, [] => best
  | best, c :: rest =>
    if c.1 > best.1 ∨ (c.1 = best.1 ∧ c.2.1 < best.2.1) then bestCandidateGo c rest
    else bestCandidateGo best rest

def bestDateCandidate : List (Nat × Nat × String) → Option String
  | [] => none
  | c :: rest => some (bestCandidateGo c rest).2.2

/-- Strategy 3 body: the first match (per pattern, in match order) that
parses and validates. -/
def firstValidDate : List (Nat × List Char) → Option String
  | [] => none
  | p :: ps =>
    match parseDate (String.mk p.2) with
    | some parsed =>
      if !parsed.data.isEmpty && isValidDateStr parsed then some parsed
      else firstValidDate ps
    | none => firstValidDate ps

def dateFallbackStrategy (text : List Char) : Option String :=
  match firstValidDate (scanAll matchDatePat1At (text.length + 1) 0 none text) with
  | some p => some p
  | none =>
  match firstValidDate (scanAll matchDatePat2At (text.length + 1) 0 none text) with
  | some p => some p
  | none => firstValidDate (scanAll matchDatePat3At (text.length + 1) 0 none text)

/-- `OCRExtractor.extract_date` (ocr_extractor.py:630-700): labeled sections
in the 30-line header, then scored header matches, then a whole-text scan —
every branch gated on `_is_valid_date`. -/
def extractDate (ocrText : String) : Option String :=
  let header := (joinNlL ((pySplitNl ocrText).take 30)).data
  match dateSectionStrategy header with
  | some p => some p
  | none =>
    match bestDateCandidate (dateCandidates header) with
    | some p => some p
    | none => dateFallbackStrategy ocrText.data

/-! ## C2 theorems -/

/-- The validator rejects everything: both the parse-failure path and the
parse-success path (where `dt_now()` raises) return `False`. -/
theorem isValidDateStr_false (s : String) : isValidDateStr s = false := by
  rw [isValidDateStr]
  split <;> rfl

theorem tryOneDateMatcher_none (m : Option Char → List Char → Option (Nat × List Char))
    (s : String) : tryOneDateMatcher m s = none := by
  rw [tryOneDateMatcher]
  split
  · rfl
  · split
    · rfl
    · rw [isValidDateStr_false]
      simp

theorem tryDateStr_none (s : String) : tryDateStr s = none := by
  simp only [tryDateStr, tryOneDateMatcher_none]
  split
  · rfl
  · rw [isValidDateStr_false]
    simp

theorem trySection_none (pat : Option Char → List Char → Option (List Char))
    (header : List Char) : trySection pat header = none := by
  rw [trySection]
  split
  · rfl
  · exact tryDateStr_none _

theorem dateSectionStrategy_none (header : List Char) :
    dateSectionStrategy header = none := by
  simp [dateSectionStrategy, trySection_none]

theorem dateCandidatesOne_nil (m : Option Char → List Char → Option (Nat × List Char))
    (header : List Char) : dateCandidatesOne m header = [] := by
  rw [dateCandidatesOne]
  refine List.filterMap_eq_nil_iff.mpr (fun p _ => ?_)
  split
  · rfl
  · rw [isValidDateStr_false]
    simp

theorem firstValidDate_none : ∀ l : List (Nat × List Char), firstValidDate l = none
  | [] => rfl
  | p :: ps => by
    rw [firstValidDate]
    split
    · rw [isValidDateStr_false]
      simp [firstValidDate_none ps]
    · exact firstValidDate_none ps

theorem dateFallbackStrategy_none (text : List Char) :
    dateFallbackStrategy text = none := by
  simp [dateFallbackStrategy, firstValidDate_none]

/-- **C2 counterexample** — the date 2025-01-15 parses as MM/DD/YYYY and lies
well inside the claimed window of 2025-06-01 (137 days in the past), yet the
validator rejects it, and on a header labeled `Invoice Date: 01/15/2025` the
extractor returns nothing instead of the date. -/
theorem c2_extract_date_counterexample :
    parseMmDdYyyy ("01/15/2025" : String).data = some (2025, 1, 15) ∧
    claimDateAccept 2025 1 15 (rataDie 2025 6 1) = true ∧
    isValidDateStr "01/15/2025" = false ∧
    extractDate "Acme Networks\nInvoice Date: 01/15/2025\n123 Main Street" = none :=
  ⟨by decide, by decide, by decide, by decide⟩

/-- C2 (code bug): `_is_valid_date` binds `dt_now` to the `datetime` class,
so `dt_now()` raises `TypeError`, which the handler converts to `False` — the
validator rejects every candidate instead of applying the claimed
365-days-future / 3650-days-past window, and since all three strategies of
`extract_date` gate on it, date extraction returns None on every input. -/
theorem c2_validator_always_false :
    (∀ s : String, isValidDateStr s = false) ∧
    (∀ t : String, extractDate t = none) := by
  refine ⟨isValidDateStr_false, fun t => ?_⟩
  rw [extractDate, dateSectionStrategy_none]
  simp [dateCandidates, dateCandidatesOne_nil, bestDateCandidate,
    dateFallbackStrategy_none]

/-! ## C6 theorems -/

theorem paymentCapture_ne_empty (pat : Option Char → List Char → Option (List Char))
    (text : List Char) (v : String) (h : paymentCapture pat text = some v) :
    v.data.isEmpty = false := by
  simp only [paymentCapture] at h
  split at h
  · exact absurd h (by simp)
  · split_ifs at h with h1 h2
    cases h
    simpa using h2

theorem extractVendorFromPaymentPattern_ne_empty (t v : String)
    (h : extractVendorFromPaymentPattern t = some v) : v.data.isEmpty = false := by
  rw [extractVendorFromPaymentPattern] at h
  split at h
  next heq =>
    cases h
    exact paymentCapture_ne_empty _ _ _ heq
  next =>
    split at h
    next heq =>
      cases h
      exact paymentCapture_ne_empty _ _ _ heq
    next => exact paymentCapture_ne_empty _ _ _ h

theorem firstLinesGo_ne_empty (i : Nat) (ls : List String) (v : String)
    (h : firstLinesGo i ls = some v) : v.data.isEmpty = false := by
  induction ls generalizing i with
  | nil => simp [firstLinesGo] at h
  | cons l rest ih =>
    simp only [firstLinesGo] at h
    split_ifs at h with h1 h2
    · exact ih _ h
    · cases h
      simpa using h2
    · exact ih _ h

theorem vendorPatternCapture_ne_empty (grp : List Char) (v : String)
    (h : vendorPatternCapture grp = some v) : v.data.isEmpty = false := by
  simp only [vendorPatternCapture] at h
  split_ifs at h with h1 h2
  cases h
  simpa using h2

theorem extractVendorFromPatterns_ne_empty (t v : String)
    (h : extractVendorFromPatterns t = some v) : v.data.isEmpty = false := by
  rw [extractVendorFromPatterns] at h
  split at h
  next heq =>
    cases h
    split at heq
    next => exact vendorPatternCapture_ne_empty _ _ heq
    next => exact absurd heq (by simp)
  next =>
    split at h
    next => exact vendorPatternCapture_ne_empty _ _ h
    next => exact absurd h (by simp)

/-- Every vendor name returned by `extract_vendor_name` is nonempty: all
three strategies return only under a nonempty-cleaned-name guard. -/
theorem extractVendorName_ne_empty (t v : String)
    (h : extractVendorName t = some v) : v.data.isEmpty = false := by
  rw [extractVendorName] at h
  split at h
  next heq =>
    cases h
    exact extractVendorFromPaymentPattern_ne_empty _ _ heq
  next =>
    split at h
    next heq =>
      cases h
      exact firstLinesGo_ne_empty _ _ _ heq
    next => exact extractVendorFromPatterns_ne_empty _ _ h

/-- A text that passes the reconciler's payment-pattern gate is nonempty. -/
theorem hasPaymentPattern_data_ne (t : String) (h : hasPaymentPattern t = true) :
    t.data.isEmpty = false := by
  cases hd : t.data with
  | nil =>
    exfalso
    simp only [hasPaymentPattern, pyContains, pyLower, hd] at h
    simp [containsL] at h
  | cons _ _ => rfl

/-- When the payment-pattern gate fires and OCR extraction succeeds, the
reconciler returns the OCR vendor regardless of the source records. -/
theorem selectVendorName_payment_override (sd od : FieldData) (t v : String)
    (hp : hasPaymentPattern t = true) (he : extractVendorName t = some v) :
    selectVendorName sd od (some t) = some v := by
  have hne : t.data.isEmpty = false := hasPaymentPattern_data_ne t hp
  have hv : v.data.isEmpty = false := extractVendorName_ne_empty t v he
  simp [selectVendorName, hne, he, hp, hv]

/-- C6 counterexample: the OCR side recognises the remittance phrase
'payments should be made to' and extracts the cleaned payee 'Zenith Ltd.',
but the reconciler's own gate only looks for 'please make payments' /
'make payments to', so the structured vendor 'Acme Corp' wins — the claimed
override does not cover the third remittance phrase. -/
theorem c6_third_phrase_counterexample :
    pyContains (pyLower "Payments should be made to: Zenith Ltd\n")
      "payments should be made to" = true ∧
    extractVendorName "Payments should be made to: Zenith Ltd\n" = some "Zenith Ltd." ∧
    hasPaymentPattern "Payments should be made to: Zenith Ltd\n" = false ∧
    selectVendorName { vendor_name := some "Acme Corp" } { }
      (some "Payments should be made to: Zenith Ltd\n") = some "Acme Corp" ∧
    ("Acme Corp" : String) ≠ "Zenith Ltd." :=
  ⟨by decide, by decide, by decide, by decide, by decide⟩

/-- C6 (amended): whenever the reconciler's payment-pattern gate fires
('please make payments' or 'make payments to' in the lowered text — but not
the third OCR phrase 'payments should be made to') and OCR vendor extraction
succeeds, the reconciled vendor_name is exactly the extracted OCR vendor,
overriding both source records; in particular an OCR text containing
'Please make payments to: Switch, Ltd.' always reconciles to 'Switch, Ltd.'
whatever the structured and OCR field records hold. -/
theorem c6_payment_override :
    (∀ (sd od : FieldData) (t v : String),
        hasPaymentPattern t = true →
        extractVendorName t = some v →
        selectVendorName sd od (some t) = some v) ∧
    (∀ (sd od : FieldData) (items : List LineItem),
        (combineExtractedFields sd od items
            (some "Acme Networks\nPlease make payments to: Switch, Ltd.\nInvoice #12345")).vendor_name
          = some "Switch, Ltd.") :=
  ⟨fun sd od t v hp he => selectVendorName_payment_override sd od t v hp he,
   fun sd od _ =>
     selectVendorName_payment_override sd od
       "Acme Networks\nPlease make payments to: Switch, Ltd.\nInvoice #12345"
       "Switch, Ltd." (by decide) (by decide)⟩

theorem c6_payment_override_witness :
    hasPaymentPattern "Please make payments to: Switch, Ltd." = true ∧
    extractVendorName "Please make payments to: Switch, Ltd." = some "Switch, Ltd." ∧
    selectVendorName { vendor_name := some "Acme Corp" } { }
      (some "Please make payments to: Switch, Ltd.") = some "Switch, Ltd." :=
  ⟨by decide, by decide,
   c6_payment_override.1 { vendor_name := some "Acme Corp" } { }
     "Please make payments to: Switch, Ltd." "Switch, Ltd." (by decide) (by decide)⟩

/-! ## C1 theorems -/

/-- A falsy optional string serialises to the empty string. -/
theorem safeStr_of_falsy (v : Option String) (h : truthyS v = false) :
    safeStr v = "" := by
  cases v with
  | none => rfl
  | some s =>
    simp only [truthyS, Bool.not_eq_false'] at h
    rw [String.isEmpty_iff] at h
    subst h
    rfl

/-- C1: for every combination of structured and OCR field records, item list
and OCR text, the generated record has exactly the six keys in order, no null
values, each string field degrades to '' when both sources are falsy (and
vendor_name degrades to '' whenever vendor selection yields a falsy result),
and line_items is exactly the serialised item list (so [] for no items). -/
theorem c1_record_always_complete (sd od : FieldData) (items : List LineItem)
    (txt : Option String) :
    ((generateJson (combineExtractedFields sd od items txt) none).map Prod.fst =
      ["vendor_name", "vendor_address", "bill_to_name", "invoice_number", "date",
       "line_items"]) ∧
    (∀ k v, (k, v) ∈ generateJson (combineExtractedFields sd od items txt) none →
      v ≠ JVal.null) ∧
    (truthyS (selectVendorName sd od txt) = false →
      dictGet (generateJson (combineExtractedFields sd od items txt) none)
        "vendor_name" = some (JVal.str "")) ∧
    (truthyS sd.vendor_address = false → truthyS od.vendor_address = false →
      dictGet (generateJson (combineExtractedFields sd od items txt) none)
        "vendor_address" = some (JVal.str "")) ∧
    (truthyS sd.bill_to_name = false → truthyS od.bill_to_name = false →
      dictGet (generateJson (combineExtractedFields sd od items txt) none)
        "bill_to_name" = some (JVal.str "")) ∧
    (truthyS sd.invoice_number = false → truthyS od.invoice_number = false →
      dictGet (generateJson (combineExtractedFields sd od items txt) none)
        "invoice_number" = some (JVal.str "")) ∧
    (truthyS sd.date = false → truthyS od.date = false →
      dictGet (generateJson (combineExtractedFields sd od items txt) none)
        "date" = some (JVal.str "")) ∧
    (dictGet (generateJson (combineExtractedFields sd od items txt) none)
      "line_items" = some (JVal.jlist (items.map serializeLineItem))) := by
  refine ⟨rfl, ?_, ?_, ?_, ?_, ?_, ?_, rfl⟩
  · intro k v h
    simp only [generateJson, combineExtractedFields, List.mem_cons,
      List.not_mem_nil, or_false, Prod.mk.injEq] at h
    rcases h with ⟨_, hv⟩ | ⟨_, hv⟩ | ⟨_, hv⟩ | ⟨_, hv⟩ | ⟨_, hv⟩ | ⟨_, hv⟩ <;>
      subst hv <;> simp
  · intro h
    have hs : safeStr (selectVendorName sd od txt) = "" := safeStr_of_falsy _ h
    have : dictGet (generateJson (combineExtractedFields sd od items txt) none)
        "vendor_name" = some (JVal.str (safeStr (selectVendorName sd od txt))) := rfl
    rw [this, hs]
  · intro h1 h2
    have ho : truthyS (orNoneField sd.vendor_address od.vendor_address) = false := by
      rw [orNoneField, if_neg (by rw [h1]; exact Bool.false_ne_true), if_neg (by rw [h2]; exact Bool.false_ne_true)]
      rfl
    have hs := safeStr_of_falsy _ ho
    have : dictGet (generateJson (combineExtractedFields sd od items txt) none)
        "vendor_address" =
        some (JVal.str (safeStr (orNoneField sd.vendor_address od.vendor_address))) := rfl
    rw [this, hs]
  · intro h1 h2
    have ho : truthyS (orNoneField sd.bill_to_name od.bill_to_name) = false := by
      rw [orNoneField, if_neg (by rw [h1]; exact Bool.false_ne_true), if_neg (by rw [h2]; exact Bool.false_ne_true)]
      rfl
    have hs := safeStr_of_falsy _ ho
    have : dictGet (generateJson (combineExtractedFields sd od items txt) none)
        "bill_to_name" =
        some (JVal.str (safeStr (orNoneField sd.bill_to_name od.bill_to_name))) := rfl
    rw [this, hs]
  · intro h1 h2
    have ho : truthyS (orNoneField sd.invoice_number od.invoice_number) = false := by
      rw [orNoneField, if_neg (by rw [h1]; exact Bool.false_ne_true), if_neg (by rw [h2]; exact Bool.false_ne_true)]
      rfl
    have hs := safeStr_of_falsy _ ho
    have : dictGet (generateJson (combineExtractedFields sd od items txt) none)
        "invoice_number" =
        some (JVal.str (safeStr (orNoneField sd.invoice_number od.invoice_number))) := rfl
    rw [this, hs]
  · intro h1 h2
    have ho : truthyS (orNoneField sd.date od.date) = false := by
      rw [orNoneField, if_neg (by rw [h1]; exact Bool.false_ne_true), if_neg (by rw [h2]; exact Bool.false_ne_true)]
      rfl
    have hs := safeStr_of_falsy _ ho
    have : dictGet (generateJson (combineExtractedFields sd od items txt) none)
        "date" = some (JVal.str (safeStr (orNoneField sd.date od.date))) := rfl
    rw [this, hs]

theorem c1_record_always_complete_witness :
    dictGet (generateJson (combineExtractedFields { } { } [] none) none)
      "vendor_name" = some (JVal.str "") ∧
    dictGet (generateJson (combineExtractedFields { } { } [] none) none)
      "vendor_address" = some (JVal.str "") ∧
    dictGet (generateJson (combineExtractedFields { } { } [] none) none)
      "bill_to_name" = some (JVal.str "") ∧
    dictGet (generateJson (combineExtractedFields { } { } [] none) none)
      "invoice_number" = some (JVal.str "") ∧
    dictGet (generateJson (combineExtractedFields { } { } [] none) none)
      "date" = some (JVal.str "") :=
  ⟨(c1_record_always_complete { } { } [] none).2.2.1 (by decide),
   (c1_record_always_complete { } { } [] none).2.2.2.1 (by decide) (by decide),
   (c1_record_always_complete { } { } [] none).2.2.2.2.1 (by decide) (by decide),
   (c1_record_always_complete { } { } [] none).2.2.2.2.2.1 (by decide) (by decide),
   (c1_record_always_complete { } { } [] none).2.2.2.2.2.2.1 (by decide) (by decide)⟩

/-! ## C7 theorems -/

/-- Dropping past the `takeWhile p` run empties the list exactly when every
element satisfies `p`. -/
theorem drop_takeWhile_isEmpty (p : Char → Bool) :
    ∀ cs : List Char, (cs.drop (cs.takeWhile p).length).isEmpty = cs.all p
  | [] => rfl
  | c :: t => by
    by_cases hp : p c = true
    · simp only [List.takeWhile_cons, hp, if_true, List.length_cons,
        List.drop_succ_cons, List.all_cons, Bool.true_and]
      exact drop_takeWhile_isEmpty p t
    · have hp' : p c = false := by
        cases hpc : p c
        · rfl
        · exact absurd hpc hp
      simp [List.takeWhile_cons, hp', List.all_cons]

/-- On newline-free input, the anchored IGNORECASE class match is just "all
characters are alphanumeric or hyphen". -/
theorem pyFullClassMatchCI_no_newline (cs : List Char) (h : '\n' ∉ cs) :
    pyFullClassMatchCI cs = (!cs.isEmpty && cs.all classAlnumDash) := by
  simp only [pyFullClassMatchCI]
  have hnl : (cs.drop (cs.takeWhile classAlnumDash).length == ['\n']) = false := by
    cases heq : cs.drop (cs.takeWhile classAlnumDash).length == ['\n']
    · rfl
    · exfalso
      have h2 : cs.drop (cs.takeWhile classAlnumDash).length = ['\n'] := beq_iff_eq.mp heq
      exact h (List.drop_subset _ cs (h2 ▸ (by simp : '\n' ∈ (['\n'] : List Char))))
  rw [hnl, Bool.or_false]
  have hdrop : (cs.drop (cs.takeWhile classAlnumDash).length == []) = cs.all classAlnumDash := by
    rw [← drop_takeWhile_isEmpty classAlnumDash cs]
    cases cs.drop (cs.takeWhile classAlnumDash).length
    · rfl
    · rfl
  rw [hdrop]
  cases hall : cs.all classAlnumDash
  · rw [Bool.and_false, Bool.and_false]
  · rw [Bool.and_true, Bool.and_true]
    cases cs with
    | nil => rfl
    | cons c t =>
      have hc : classAlnumDash c = true := by
        rw [List.all_cons, Bool.and_eq_true] at hall
        exact hall.1
      simp [List.takeWhile_cons, hc]

/-- **C7 counterexample** — the claim's final form `[A-Z0-9-]+` is
case-sensitive, but the code compiles that class with `re.IGNORECASE`, so the
lowercase candidate `"abc-123"` is accepted by the code while the claim's
conditions reject it. -/
theorem c7_case_insensitive_counterexample :
    isValidInvoiceNumber "abc-123" invoiceNumberExclusions = true ∧
    claimValidInvoiceNumber "abc-123" = false := by
  refine ⟨by decide, by decide⟩

/-- **C7 (amended)** — a candidate is accepted by the invoice-number
validator iff its length is 6–20, it is not (case-insensitively) in the
exclusion word set, it is not entirely lowercase alphabetic, it is not
date-shaped, it is not a 4-digit year in [1900, 2100] (vacuous given the
length bound), and it is either pure digits or consists of letters *of either
case*, digits and hyphens (the code's `[A-Z0-9-]+` carries `re.IGNORECASE`);
in particular `'2024'`, `'01/15/2024'` and `'total'` are rejected while
`'8963157731'` and `'INV-12345'` are accepted.  (Stated for candidates
without embedded newlines, as produced by the extraction regexes.) -/
theorem c7_validator_characterization :
    (∀ s : String, '\n' ∉ s.data →
      isValidInvoiceNumber s invoiceNumberExclusions = amendedValidInvoiceNumber s) ∧
    isValidInvoiceNumber "2024" invoiceNumberExclusions = false ∧
    isValidInvoiceNumber "01/15/2024" invoiceNumberExclusions = false ∧
    isValidInvoiceNumber "total" invoiceNumberExclusions = false ∧
    isValidInvoiceNumber "8963157731" invoiceNumberExclusions = true ∧
    isValidInvoiceNumber "INV-12345" invoiceNumberExclusions = true := by
  refine ⟨?_, by decide, by decide, by decide, by decide, by decide⟩
  intro s hnl
  have hfc := pyFullClassMatchCI_no_newline s.data hnl
  unfold isValidInvoiceNumber amendedValidInvoiceNumber
  rw [hfc]
  split_ifs with h1 h2 h3 h4 h5 h6 h7 h8 <;> try (simp_all <;> omega)
  · -- accepted, pure digits
    push_neg at h2
    have c1 : decide (6 ≤ s.data.length) = true := decide_eq_true h2.1
    have c2 : decide (s.data.length ≤ 20) = true := decide_eq_true h2.2
    have c3 : invoiceNumberExclusions.contains (pyStrip (pyLower s)) = false :=
      Bool.eq_false_iff.mpr h3
    have c4 : (pyIsAlphaStr s && pyIsLowerStr s) = false := by
      cases ha : pyIsAlphaStr s <;> cases hb : pyIsLowerStr s <;> simp_all
    have c5 : (matchDatePat1At none s.data).isSome = false := Bool.eq_false_iff.mpr h5
    have c6 : (s.data.length == 4) = false := by
      have hne : s.data.length ≠ 4 := by omega
      simpa using hne
    rw [c1, c2, c3, c4, c5, c6, h7]
    simp
  · -- accepted, alphanumeric form
    push_neg at h2
    have c1 : decide (6 ≤ s.data.length) = true := decide_eq_true h2.1
    have c2 : decide (s.data.length ≤ 20) = true := decide_eq_true h2.2
    have c3 : invoiceNumberExclusions.contains (pyStrip (pyLower s)) = false :=
      Bool.eq_false_iff.mpr h3
    have c4 : (pyIsAlphaStr s && pyIsLowerStr s) = false := by
      cases ha : pyIsAlphaStr s <;> cases hb : pyIsLowerStr s <;> simp_all
    have c5 : (matchDatePat1At none s.data).isSome = false := Bool.eq_false_iff.mpr h5
    have c6 : (s.data.length == 4) = false := by
      have hne : s.data.length ≠ 4 := by omega
      simpa using hne
    have c7 : pyIsDigitStr s = false := Bool.eq_false_iff.mpr h7
    rw [c1, c2, c3, c4, c5, c6, c7, h8]
    simp

/-- Witness for C7: the characterization applies at the concrete candidate
`"INV-12345"`. -/
theorem c7_validator_characterization_witness :
    isValidInvoiceNumber "INV-12345" invoiceNumberExclusions =
      amendedValidInvoiceNumber "INV-12345" :=
  c7_validator_characterization.1 "INV-12345" (by decide)

/-! ## C4 theorems -/

/-- `_ensure_price_consistency` forces a nonpositive price whenever the total
is negative. -/
theorem ensurePriceConsistency_nonpos (p t : Rat) (ht : t < 0) :
    ensurePriceConsistency p t ≤ 0 := by
  unfold ensurePriceConsistency
  by_cases hp : p > 0
  · rw [if_pos ⟨ht, hp⟩]
    have := pyAbs_nonneg p
    linarith
  · rw [if_neg (fun h => hp h.2)]
    linarith

/-- **C4 counterexample** — the sign invariant fails on the pipeline: for the
OCR text `"Widget -5.00 10.00"` the segmenter reads the first price token as
negative (leading `-`) and the last as the positive total, and the improver
only repairs the case `total < 0 ∧ price > 0`, so the emitted item has
`price = -5 < 0 < 10 = total`. -/
theorem c4_sign_invariant_counterexample :
    extractAndImproveLineItems (extractFromOcr "Widget -5.00 10.00") =
      [⟨"", "Widget -5.00 10.00", 5, -5, 0, 10⟩] ∧
    ¬ ((0 ≤ (-5 : Rat) ∧ 0 ≤ (10 : Rat)) ∨ ((-5 : Rat) ≤ 0 ∧ (10 : Rat) ≤ 0)) := by
  refine ⟨by decide, by decide⟩

/-- **C4 (amended)** — for every OCR text, every line item emitted by the
extraction pipeline (OCR segmentation followed by the Line Item Improver)
satisfies the *one-sided* sign rule the code enforces: a negative total forces
a nonpositive price.  (The converse direction is not enforced: a negative
price can accompany a positive total.) -/
theorem c4_pipeline_negative_total_price (ocr : String) (it : LineItem)
    (hmem : it ∈ extractAndImproveLineItems (extractFromOcr ocr))
    (hneg : it.total < 0) : it.price ≤ 0 := by
  obtain ⟨z, _, hz⟩ := List.mem_map.mp hmem
  have hf := improveSingleLineItem_fields z
  rw [← hz] at hneg ⊢
  rw [hf.2.2.2]
  rw [hf.2.1] at hneg
  exact ensurePriceConsistency_nonpos z.price z.total hneg

/-- Witness for C4: a credited item from a concrete OCR text has a negative
total and indeed a nonpositive price. -/
theorem c4_pipeline_negative_total_price_witness :
    (⟨"", "Service credit -20.00", 0, -20, 0, -20⟩ : LineItem) ∈
      extractAndImproveLineItems (extractFromOcr "Service credit -20.00") ∧
    (⟨"", "Service credit -20.00", 0, -20, 0, -20⟩ : LineItem).price ≤ 0 := by
  refine ⟨by decide, ?_⟩
  exact c4_pipeline_negative_total_price "Service credit -20.00"
    ⟨"", "Service credit -20.00", 0, -20, 0, -20⟩ (by decide) (by decide)

/-! ## C8 theorems -/

/-- **C8 counterexample** — segmentation termination is not the claimed
conjunction: the line `"Total 100.00"` contains no `:`, `=` or `$` delimiter,
yet it terminates parsing (it starts with the indicator `total`), so the item
`"Widget B 7.00"` after it is never parsed.  (The Widget A item appears twice:
the break path appends the open item without clearing `current_item`, and the
post-loop append at lines 405-406 emits it again.) -/
theorem c8_totals_condition_counterexample :
    isTotalsSection "total 100.00".data = true ∧
    claimTotalsCondition "total 100.00".data = false ∧
    extractFromOcr "Widget A 5.00\nTotal 100.00\nWidget B 7.00" =
      [⟨"", "Widget A 5.00", 0, 5, 0, 5⟩, ⟨"", "Widget A 5.00", 0, 5, 0, 5⟩] := by
  refine ⟨by decide, by decide, by decide⟩

/-- **C8 (amended)** — parsing terminates at a (stripped, lowered) line
exactly when, for one of the totals indicators, the line *starts with* the
indicator, or starts with an `invoice`/`bill`/`statement` prefix directly
before it, **or** merely *contains* the indicator while the line also
contains one of the delimiters `:`, `=`, `$` (the delimiter condition
attaches only to the containment form, and the anchored forms need no
delimiter); at such a line the remaining input is discarded. -/
theorem c8_totals_termination :
    (∀ lineLower : List Char, isTotalsSection lineLower = true ↔
      ∃ ind ∈ totalsIndicators,
        (startsWithL ind.data lineLower = true ∨
         matchesPrefixedIndicator lineLower ind.data = true ∨
         (containsL lineLower ind.data = true ∧
           (containsL lineLower [':'] = true ∨ containsL lineLower ['='] = true ∨
            containsL lineLower ['$'] = true)))) ∧
    (∀ (l : String) (rest₁ rest₂ : List String) (cur : PartialItem)
        (acc : List PartialItem),
      (pyStripL l.data).isEmpty = false →
      isTotalsSection ((pyStripL l.data).map Char.toLower) = true →
      segLoop (l :: rest₁) cur acc = segLoop (l :: rest₂) cur acc) := by
  constructor
  · intro lineLower
    simp only [isTotalsSection, List.any_eq_true, Bool.or_eq_true, Bool.and_eq_true]
    constructor
    · rintro ⟨ind, hind, h⟩
      refine ⟨ind, hind, ?_⟩
      rcases h with (h | h) | ⟨hc, hd⟩
      · exact .inl h
      · exact .inr (.inl h)
      · refine .inr (.inr ⟨hc, ?_⟩)
        simp only [List.any_eq_true, List.mem_cons, List.not_mem_nil] at hd
        rcases hd with ⟨d, hd, hdc⟩
        rcases hd with rfl | rfl | rfl | h0
        · exact .inl hdc
        · exact .inr (.inl hdc)
        · exact .inr (.inr hdc)
        · cases h0
    · rintro ⟨ind, hind, h⟩
      refine ⟨ind, hind, ?_⟩
      rcases h with h | h | ⟨hc, hd⟩
      · exact .inl (.inl h)
      · exact .inl (.inr h)
      · refine .inr ⟨hc, ?_⟩
        simp only [List.any_eq_true, List.mem_cons]
        rcases hd with h | h | h
        · exact ⟨":", by simp, h⟩
        · exact ⟨"=", by simp, h⟩
        · exact ⟨"$", by simp, h⟩
  · intro l rest₁ rest₂ cur acc hne htot
    simp only [segLoop, hne, Bool.false_eq_true, if_false, htot, if_true]

/-- Witness for C8: at the concrete line `"Total 100.00"` the tail of the
input is irrelevant. -/
theorem c8_totals_termination_witness :
    segLoop ["Total 100.00", "Widget B 7.00"] {} [] =
      segLoop ["Total 100.00"] {} [] := by
  exact c8_totals_termination.2 "Total 100.00" ["Widget B 7.00"] [] {} []
    (by decide) (by decide)

/-! ## C5 theorems -/

/-- **C5 counterexample** — the Line Item Improver is not idempotent: on the
item with description `"Service ta(123)x"`, the first pass extracts SKU
`"123"` and cleans the description to `"Service tax"`; the second pass then
classifies the item as tax and resets the SKU to `""`. -/
theorem c5_not_idempotent_counterexample :
    extractAndImproveLineItems
        (extractAndImproveLineItems [⟨"", "Service ta(123)x", 1, 5, 0, 5⟩]) ≠
      extractAndImproveLineItems [⟨"", "Service ta(123)x", 1, 5, 0, 5⟩] := by
  decide

/-- **C5 (amended)** — a second application of the Line Item Improver to its
own output preserves the item count and every numeric field (`quantity`,
`price`, `tax_rate`, `total`) of every item; it is not a fixed point in
general because description cleaning can reclassify an item (e.g. introduce a
tax keyword), resetting its `sku`. -/
theorem c5_second_pass_preserves_numeric_fields (items : List LineItem)
    (x y : LineItem)
    (hmem : (x, y) ∈ (extractAndImproveLineItems items).zip
      (extractAndImproveLineItems (extractAndImproveLineItems items))) :
    (extractAndImproveLineItems (extractAndImproveLineItems items)).length =
      (extractAndImproveLineItems items).length ∧
    y.quantity = x.quantity ∧ y.price = x.price ∧
    y.tax_rate = x.tax_rate ∧ y.total = x.total := by
  have hy : y = improveSingleLineItem x :=
    mem_zip_map _ (extractAndImproveLineItems items) x y hmem
  have hx : x ∈ extractAndImproveLineItems items := (List.of_mem_zip hmem).1
  obtain ⟨z, _, hz⟩ := List.mem_map.mp hx
  have hfx := improveSingleLineItem_fields x
  have hfz := improveSingleLineItem_fields z
  refine ⟨by simp [extractAndImproveLineItems], ?_, ?_, ?_, ?_⟩
  · rw [hy]
    exact hfx.1
  · rw [hy, hfx.2.2.2, ← hz]
    rw [hfz.2.1, hfz.2.2.2]
    exact ensurePriceConsistency_idem z.price z.total
  · rw [hy, hfx.2.2.1, ← hz, hfz.2.2.1]
  · rw [hy]
    exact hfx.2.1

/-- Witness for C5: concrete second application on a plain transport item. -/
theorem c5_second_pass_preserves_numeric_fields_witness :
    (improveSingleLineItem (improveSingleLineItem ⟨"", "Transport", 1, 5, 0, 5⟩)).quantity =
      (improveSingleLineItem ⟨"", "Transport", 1, 5, 0, 5⟩).quantity ∧
    (improveSingleLineItem (improveSingleLineItem ⟨"", "Transport", 1, 5, 0, 5⟩)).price =
      (improveSingleLineItem ⟨"", "Transport", 1, 5, 0, 5⟩).price := by
  have h := c5_second_pass_preserves_numeric_fields
    [⟨"", "Transport", 1, 5, 0, 5⟩]
    (improveSingleLineItem ⟨"", "Transport", 1, 5, 0, 5⟩)
    (improveSingleLineItem (improveSingleLineItem ⟨"", "Transport", 1, 5, 0, 5⟩))
    (by decide)
  exact ⟨h.2.1, h.2.2.1⟩

/-! ## C9 theorems -/

/-- A positively filtered result is positive. -/
theorem pos_of_pos_filter {q t : Rat} (h : (if q > 0 then some q else none) = some t) :
    0 < t := by
  by_cases hq : q > 0
  · rw [if_pos hq] at h
    injection h with h2
    rw [← h2]
    exact hq
  · rw [if_neg hq] at h
    cases h

/-- `_get_invoice_total_from_response` only ever returns positive totals. -/
theorem getInvoiceTotalFromResponse_pos (r : Option (List (String × JVal))) (t : Rat)
    (h : getInvoiceTotalFromResponse r = some t) : 0 < t := by
  cases r with
  | none => exact absurd h (by simp [getInvoiceTotalFromResponse])
  | some d =>
    simp only [getInvoiceTotalFromResponse] at h
    split at h
    · cases h
    · split at h
      · cases h
      · cases h
      · split at h
        · cases h
        · exact pos_of_pos_filter h

/-- A line accepted by the OCR total scan yields a positive total. -/
theorem invoiceTotalFromLine_pos (l : String) (t : Rat)
    (h : invoiceTotalFromLine l = some t) : 0 < t := by
  simp only [invoiceTotalFromLine] at h
  split at h
  · cases h
  · split at h
    · cases h
    · split at h
      · cases h
      · split at h
        · cases h
        · exact pos_of_pos_filter h

/-- `_get_invoice_total_from_ocr` only ever returns positive totals. -/
theorem getInvoiceTotalFromOcr_pos (o : Option String) (t : Rat)
    (h : getInvoiceTotalFromOcr o = some t) : 0 < t := by
  cases o with
  | none => exact absurd h (by simp [getInvoiceTotalFromOcr])
  | some s =>
    simp only [getInvoiceTotalFromOcr] at h
    split at h
    · cases h
    · revert h
      induction pySplitNl s with
      | nil => intro h; exact absurd h (by simp [firstInvoiceTotalLine])
      | cons l ls ih =>
        intro h
        unfold firstInvoiceTotalLine at h
        split at h
        · rename_i t' hline
          injection h with h2
          rw [← h2]
          exact invoiceTotalFromLine_pos l t' hline
        · exact ih h

/-- **C9 (amended)** — the invoice-total helper resolves in priority order
structured total, then OCR total line, then absolute line-item sum, but each
stage additionally requires a *positive* value (a structured or OCR total of
zero or less, or a zero line-item sum, is skipped / yields `None`); every
resolved total is positive.  In particular the consecutive OCR lines
`"Subtotal: $10,000.00"`, `"Tax: $850.00"`, `"Total: $10,850.00"` resolve to
`10850.0` from the `"Total"` line, not the `"Subtotal"` line. -/
theorem c9_invoice_total_priority :
    (∀ r o items t, getInvoiceTotal r o items = some t → 0 < t) ∧
    (∀ r o items t, getInvoiceTotalFromResponse r = some t →
      getInvoiceTotal r o items = some t) ∧
    (∀ r o items t, getInvoiceTotalFromResponse r = none →
      getInvoiceTotalFromOcr o = some t → getInvoiceTotal r o items = some t) ∧
    (∀ r o items, getInvoiceTotalFromResponse r = none →
      getInvoiceTotalFromOcr o = none →
      getInvoiceTotal r o items = calculateInvoiceTotalFromLineItems items) ∧
    getInvoiceTotal none (some "Subtotal: $10,000.00\nTax: $850.00\nTotal: $10,850.00") []
      = some 10850 := by
  refine ⟨?_, ?_, ?_, ?_, by decide⟩
  · intro r o items t h
    unfold getInvoiceTotal at h
    split at h
    · rename_i t' hr
      rw [Option.some.injEq] at h
      rw [← h]
      exact getInvoiceTotalFromResponse_pos r t' hr
    · split at h
      · rename_i t' ho
        rw [Option.some.injEq] at h
        rw [← h]
        exact getInvoiceTotalFromOcr_pos o t' ho
      · simp only [calculateInvoiceTotalFromLineItems] at h
        split at h
        · cases h
        · exact pos_of_pos_filter h
  · intro r o items t h
    unfold getInvoiceTotal
    rw [h]
  · intro r o items t hr ho
    unfold getInvoiceTotal
    rw [hr, ho]
  · intro r o items hr ho
    unfold getInvoiceTotal
    rw [hr, ho]

/-- Witness for C9: at the Scenario-E input the priority facts apply
concretely (the OCR stage resolves and is positive). -/
theorem c9_invoice_total_priority_witness :
    (0 : Rat) < 10850 ∧
    getInvoiceTotal none (some "Subtotal: $10,000.00\nTax: $850.00\nTotal: $10,850.00") []
      = some 10850 := by
  refine ⟨?_, ?_⟩
  · exact c9_invoice_total_priority.1 none
      (some "Subtotal: $10,000.00\nTax: $850.00\nTotal: $10,850.00") [] 10850
      c9_invoice_total_priority.2.2.2.2
  · exact c9_invoice_total_priority.2.2.1 none
      (some "Subtotal: $10,000.00\nTax: $850.00\nTotal: $10,850.00") [] 10850
      (by decide) (by decide)

/-- **C9 counterexample** — as literally stated the claim fails: a structured
response whose `total` field is present but `0` is *skipped* by the code
(which requires `total > 0`), so the helper returns `None`, while the claim's
wording resolves it to the structured value `0`. -/
theorem c9_zero_structured_total_counterexample :
    getInvoiceTotal (some [("total", JVal.num 0)]) none [] = none ∧
    claimStructuredTotal (some [("total", JVal.num 0)]) = some 0 := by
  refine ⟨by decide, by decide⟩

end Invoice
